import Mathlib

/-!
# OPENLAB gas-sensor dashboard: gauges, classifiers, stream clients, windows, alerts

A shallow embedding of the pure numeric helpers and of the WebSocket lifecycle
handlers found in

* `backend/static/js/dashboard.js` (`updateGauge`, `updateRisk`, `updateDashboard` with its
  alert deduplicator, the `gaugeMeta` plugin of `createGauge`, `connectWebSocket`),
* `frontend/src/components/CircularGauge.jsx`,
* `frontend/src/pages/Dashboard.jsx` (`getStatusColor`, the gauge props),
* `frontend/src/pages/Sensors.jsx` (`getSensorStatus`, the history effect),
* `frontend/src/hooks/useSensorData.js` (the React stream client),
* `frontend/src/pages/LiveGraphs.jsx` (the graph window),
* `frontend/src/pages/Alerts.jsx` (the alert detection effect, the alert list, the filter
  and the CSV export).

A React effect is represented by its body together with its dependency test: the body runs
on mount and on every later render in which a dependency differs from the previous render.
Clock reads (`Date.now()`, `new Date()`) within one effect run return one instant, in ms.

Finite JavaScript numbers are represented by exact rationals; `NaN`, `undefined` and `null`
are separate values. Rounding of IEEE doubles is not represented.
-/

namespace OpenLab

/-! ## JavaScript values reaching the numeric helpers -/

/-- The JavaScript values a numeric telemetry field can hold once a frame is parsed:
`undefined` (field absent), `null`, `NaN`, or a finite number. -/
inductive JSVal where
  | undefined : JSVal
  | null : JSVal
  | nan : JSVal
  | num (q : ℚ) : JSVal
  deriving DecidableEq, Repr

/-- Abstract operation `ToNumber`; `none` stands for `NaN`. `null` converts to `0`,
`undefined` to `NaN`. -/
def JSVal.toNumber : JSVal → Option ℚ
  | .undefined => none
  | .null => some 0
  | .nan => none
  | .num q => some q

/-- Global `isNaN(v)`: converts with `ToNumber` and tests for `NaN`. -/
def isNaN (v : JSVal) : Bool :=
  v.toNumber.isNone

/-- Relational `a > b` against a finite number: false as soon as `a` converts to `NaN`. -/
def jsGt (a : JSVal) (b : ℚ) : Bool :=
  match a.toNumber with
  | some q => decide (q > b)
  | none => false

/-- Relational `a >= b` against a finite number: false as soon as `a` converts to `NaN`. -/
def jsGe (a : JSVal) (b : ℚ) : Bool :=
  match a.toNumber with
  | some q => decide (q ≥ b)
  | none => false

/-- `Math.round` on a finite number: the nearest integer, halves rounded towards `+∞`. -/
def Math.round (x : ℚ) : ℚ :=
  (Int.floor (x + 1 / 2) : ℤ)

/-! ## `dashboard.js`: gauges -/

/-- The part of a Chart.js doughnut that `createGauge`, its `gaugeMeta` plugin and
`updateGauge` read and write: the title, `datasets[0].backgroundColor[0]`, and the two
entries `datasets[0].data[0]` (value) and `datasets[0].data[1]` (remaining). -/
structure Chart where
  title : String
  backgroundColor0 : String
  data0 : ℚ
  data1 : ℚ
  deriving DecidableEq, Repr

/-- The chart built by `createGauge(ctx, label, color, max, unit)`: data `[0, max]`. -/
def createGauge (label color : String) (max : ℚ) : Chart :=
  { title := label, backgroundColor0 := color, data0 := 0, data1 := max }

/-- The `total` that the `gaugeMeta` plugin of a gauge created with `max` prints as the
right-hand (maximum) label: `data[0] + data[1]`, replaced by `max` when not positive. -/
def gaugeMetaTotal (chart : Chart) (max : ℚ) : ℚ :=
  let value := chart.data0
  let total := value + chart.data1
  if total ≤ 0 then max else total

/-- The guard opening `updateGauge`: `undefined`, `null` and anything `isNaN` become `0`. -/
def gaugeValue (value : JSVal) : ℚ :=
  if value = JSVal.undefined ∨ value = JSVal.null ∨ isNaN value = true then 0
  else
    match value with
    | .num q => q
    | _ => 0

/-- The colour chosen in `updateGauge`: the chart's current colour unless at least two
thresholds are given, in which case `[warn, danger]` are the first two of them. -/
def gaugeColor (current : String) (value : ℚ) (thresholds : List ℚ) : String :=
  match thresholds with
  | warn :: danger :: _ =>
    if value > danger then "#EF4444"
    else if value > warn then "#F59E0B"
    else "#10B981"
  | _ => current

/-- The function `updateGauge(chart, value, max, thresholds)` of `dashboard.js`; a call
that omits `thresholds` passes the empty list. -/
def updateGauge (chart : Chart) (value : JSVal) (max : ℚ) (thresholds : List ℚ) : Chart :=
  let value := gaugeValue value
  let displayValue := Max.max 0 (Min.min value max)
  let remaining := Max.max 0 (max - value)
  let color := gaugeColor chart.backgroundColor0 value thresholds
  { chart with backgroundColor0 := color, data0 := displayValue, data1 := remaining }

/-- The number `updateGauge` writes to `data[0]`. -/
def displayValue (chart : Chart) (value : JSVal) (max : ℚ) (thresholds : List ℚ) : ℚ :=
  (updateGauge chart value max thresholds).data0

/-- The number `updateGauge` writes to `data[1]`. -/
def remaining (chart : Chart) (value : JSVal) (max : ℚ) (thresholds : List ℚ) : ℚ :=
  (updateGauge chart value max thresholds).data1

/-- The colour `updateGauge` writes to `backgroundColor[0]`. -/
def writtenColor (chart : Chart) (value : JSVal) (max : ℚ) (thresholds : List ℚ) : String :=
  (updateGauge chart value max thresholds).backgroundColor0

/-- The gauge update `updateDashboard` performs for a voltage field of a frame:
`updateGauge(gauge, field, 3.3, [1.5, 2.0])`. -/
def updateDashboardGauge (chart : Chart) (field : JSVal) : Chart :=
  updateGauge chart field (33 / 10) [3 / 2, 2]

/-! ## The specification's vocabulary -/

/-- The three colour buckets of a gauge display. -/
inductive Bucket where
  | Normal : Bucket
  | Warn : Bucket
  | Danger : Bucket
  deriving DecidableEq, Repr

/-- The specification's `clamp(value, lo, hi)`. -/
def clamp (value lo hi : ℚ) : ℚ :=
  if value < lo then lo else if value > hi then hi else value

/-- The specification's `classify(value, [warn, danger])`: Danger above `danger`, else Warn
above `warn`, else Normal, with strict comparisons. -/
def classify (value warn danger : ℚ) : Bucket :=
  if value > danger then Bucket.Danger
  else if value > warn then Bucket.Warn
  else Bucket.Normal

/-- The hex colour `dashboard.js` and `Dashboard.jsx` use for a bucket. -/
def Bucket.color : Bucket → String
  | .Normal => "#10B981"
  | .Warn => "#F59E0B"
  | .Danger => "#EF4444"

/-! ## `CircularGauge.jsx` and its use in `Dashboard.jsx` -/

/-- What `CircularGauge` computes from its props `value` and `max`: the (unused)
`percentage` and the two doughnut segments `data: [value, max - value]`. -/
structure GaugeData where
  percentage : ℚ
  data0 : ℚ
  data1 : ℚ
  deriving DecidableEq, Repr

/-- The component `CircularGauge` of `CircularGauge.jsx`, for numeric props. -/
def CircularGauge (value max : ℚ) : GaugeData :=
  { percentage := Min.min ((value / max) * 100) 100
    data0 := value
    data1 := max - value }

/-- The ppm gauges of `Dashboard.jsx`:
`CircularGauge value=Math.round(data.mq2_gas) max=500`. -/
def dashboardPpmGauge (reading : ℚ) : GaugeData :=
  CircularGauge (Math.round reading) 500

/-! ## `Sensors.jsx`: voltage status -/

/-- The record returned by `getSensorStatus`. -/
structure SensorStatus where
  color : String
  text : String
  bg : String
  border : String
  deriving DecidableEq, Repr

/-- The function `getSensorStatus(voltage)` of the Sensors page. -/
def getSensorStatus (voltage : JSVal) : SensorStatus :=
  if jsGe voltage 2 = true then
    { color := "red", text := "CRITICAL", bg := "bg-red-100", border := "border-red-500" }
  else if jsGe voltage (3 / 2) = true then
    { color := "yellow", text := "WARNING", bg := "bg-yellow-100",
      border := "border-yellow-500" }
  else
    { color := "green", text := "SAFE", bg := "bg-green-100", border := "border-green-500" }

/-- The status text the Sensors page shows for the bucket a gauge classifier yields. -/
def Bucket.statusText : Bucket → String
  | .Normal => "SAFE"
  | .Warn => "WARNING"
  | .Danger => "CRITICAL"

/-! ## Score-based status: `Dashboard.jsx` and `dashboard.js` -/

/-- The function `getStatusColor(score)` of `Dashboard.jsx`. -/
def getStatusColor (score : JSVal) : String :=
  if jsGt score 70 = true then "#EF4444"
  else if jsGt score 30 = true then "#F59E0B"
  else "#10B981"

/-- The styling `updateRisk(score, status)` of `dashboard.js` applies: the colour of the
risk value, the status text and its colour, and the border colour of the risk circle. -/
structure RiskUI where
  riskValColor : String
  riskStatusText : String
  riskStatusColor : String
  riskCircleBorderColor : String
  deriving DecidableEq, Repr

/-- The function `updateRisk(score, status)` of `dashboard.js` (colours and status text). -/
def updateRisk (score : JSVal) (status : String) : RiskUI :=
  let color :=
    if jsGt score 70 = true then "#EF4444"
    else if jsGt score 30 = true then "#F59E0B"
    else "#10B981"
  { riskValColor := color, riskStatusText := status, riskStatusColor := color,
    riskCircleBorderColor := color }

/-- The `className` that `updateDashboard` gives the risk card for `data.risk_score`. -/
def riskCardClassName (risk_score : JSVal) : String :=
  if jsGt risk_score 70 = true then
    "bg-gradient-to-br from-red-500 to-red-600 text-white p-4 rounded-xl shadow-lg"
  else if jsGt risk_score 30 = true then
    "bg-gradient-to-br from-yellow-500 to-orange-600 text-white p-4 rounded-xl shadow-lg"
  else
    "bg-gradient-to-br from-green-500 to-green-600 text-white p-4 rounded-xl shadow-lg"

/-- The risk-card class `dashboard.js` uses for a bucket. -/
def Bucket.cardClassName : Bucket → String
  | .Normal => "bg-gradient-to-br from-green-500 to-green-600 text-white p-4 rounded-xl shadow-lg"
  | .Warn => "bg-gradient-to-br from-yellow-500 to-orange-600 text-white p-4 rounded-xl shadow-lg"
  | .Danger => "bg-gradient-to-br from-red-500 to-red-600 text-white p-4 rounded-xl shadow-lg"

/-! ## `dashboard.js`: WebSocket connection with auto-reconnect -/

/-- The connection indicator: class of `connection-dot`, text and class of
`connection-text`. -/
structure Indicator where
  dotClass : String
  text : String
  textClass : String
  deriving DecidableEq, Repr

/-- The globals and page state the WebSocket handlers of `dashboard.js` act on:
`reconnectAttempts`, the connection indicator, the delays of every
`setTimeout(connectWebSocket, delay)` call so far (oldest first), and the number of
sockets created by `connectWebSocket`. -/
structure StreamClient where
  reconnectAttempts : Nat
  indicator : Indicator
  scheduled : List Nat
  sockets : Nat
  deriving DecidableEq, Repr

/-- The constant `maxReconnectDelay`. -/
def maxReconnectDelay : Nat := 5000

/-- The function `connectWebSocket()`: creates a socket and installs the handlers. -/
def connectWebSocket (s : StreamClient) : StreamClient :=
  { s with sockets := s.sockets + 1 }

/-- The state after the script has loaded: `reconnectAttempts = 0` and one call of
`connectWebSocket()`. -/
def StreamClient.init (indicator : Indicator) : StreamClient :=
  connectWebSocket { reconnectAttempts := 0, indicator := indicator, scheduled := [],
                     sockets := 0 }

/-- The handler `ws.onopen`. -/
def onopen (s : StreamClient) : StreamClient :=
  { s with
    reconnectAttempts := 0
    indicator :=
      { dotClass := "w-2 h-2 rounded-full bg-emerald-500 animate-pulse"
        text := "Connected"
        textClass := "text-xs font-medium text-emerald-600 dark:text-emerald-400" } }

/-- The handler `ws.onerror`: logs only. -/
def onerror (s : StreamClient) : StreamClient := s

/-- The delay computed in `ws.onclose`:
`Math.min(1000 * Math.pow(2, reconnectAttempts), maxReconnectDelay)`. -/
def reconnectDelay (reconnectAttempts : Nat) : Nat :=
  Min.min (1000 * 2 ^ reconnectAttempts) maxReconnectDelay

/-- The handler `ws.onclose`. -/
def onclose (s : StreamClient) : StreamClient :=
  let delay := reconnectDelay s.reconnectAttempts
  { s with
    indicator :=
      { dotClass := "w-2 h-2 rounded-full bg-yellow-500 animate-pulse"
        text := "Reconnecting..."
        textClass := "text-xs font-medium text-yellow-600 dark:text-yellow-400" }
    reconnectAttempts := s.reconnectAttempts + 1
    scheduled := s.scheduled ++ [delay] }

/-- The effect of `ws.onmessage` on the client state. `none`: the payload did not parse or
`updateDashboard` threw before its last block (the `catch` logs and returns). `some b`:
`updateDashboard` reached its last block with `data.sensor_connected` truthy (`true`) or
falsy (`false`) and rewrote the indicator. -/
def onmessage (sensorConnected : Option Bool) (s : StreamClient) : StreamClient :=
  match sensorConnected with
  | none => s
  | some true =>
    { s with
      indicator :=
        { dotClass := "w-2 h-2 rounded-full bg-emerald-500 animate-pulse"
          text := "Connected (COM9)"
          textClass := "text-xs font-medium text-emerald-600 dark:text-emerald-400" } }
  | some false =>
    { s with
      indicator :=
        { dotClass := "w-2 h-2 rounded-full bg-red-500"
          text := "Disconnected"
          textClass := "text-xs font-medium text-red-600 dark:text-red-400" } }

/-- The events the stream client reacts to: the four socket events and the firing of a
reconnect timer (which calls `connectWebSocket`). -/
inductive Event where
  | open : Event
  | message (sensorConnected : Option Bool) : Event
  | error : Event
  | close : Event
  | timer : Event
  deriving DecidableEq, Repr

/-- One event handled by the client. -/
def step (s : StreamClient) : Event → StreamClient
  | .open => onopen s
  | .message m => onmessage m s
  | .error => onerror s
  | .close => onclose s
  | .timer => connectWebSocket s

/-- The events of a list handled in order. -/
def run (s : StreamClient) (es : List Event) : StreamClient :=
  es.foldl step s

/-- Number of close events in a list of events. -/
def closeCount (es : List Event) : Nat :=
  es.count Event.close

/-- The gauge `gaugeMQ2` created when the script loads. -/
def gaugeMQ2 : Chart :=
  createGauge "MQ-2 Gas" "#8B5CF6" (33 / 10)

/-! ## Parsed frames and the values derived from them -/

/-- An exception raised by a JavaScript expression. -/
inductive JSError where
  | typeError (what : String) : JSError
  deriving DecidableEq, Repr

/-- The object `JSON.parse` returns for a message that is a JSON object: numeric fields are
absent (`undefined`), `null` or numbers, string fields are absent (`none`) or strings, and
`sensor_connected` is kept by its truthiness. -/
structure Frame where
  mq2_gas : JSVal
  mq2_voltage : JSVal
  mq135_air : JSVal
  mq135_voltage : JSVal
  risk_score : JSVal
  ml_confidence : JSVal
  temperature : JSVal
  status : Option String
  ml_prediction : Option String
  ai_command : Option String
  sensor_connected : Bool
  deriving DecidableEq, Repr

/-- The empty JSON object: every field absent. -/
def Frame.empty : Frame :=
  { mq2_gas := .undefined, mq2_voltage := .undefined, mq135_air := .undefined,
    mq135_voltage := .undefined, risk_score := .undefined, ml_confidence := .undefined,
    temperature := .undefined, status := none, ml_prediction := none, ai_command := none,
    sensor_connected := false }

/-- The text `x.toFixed(digits)` of a number `x`, kept symbolically. -/
inductive NumText where
  | fixed (q : ℚ) (digits : Nat) : NumText
  | nan : NumText
  deriving DecidableEq, Repr

/-- The method call `v.toFixed(digits)`: a `TypeError` when the receiver is `undefined` or
`null`, the text of the number otherwise. -/
def JSVal.toFixed (v : JSVal) (digits : Nat) : Except JSError NumText :=
  match v with
  | .undefined => .error (.typeError "cannot read properties of undefined (reading toFixed)")
  | .null => .error (.typeError "cannot read properties of null (reading toFixed)")
  | .nan => .ok .nan
  | .num q => .ok (.fixed q digits)

/-- The optional call `v?.toFixed(digits)`: `undefined` (`none`) when the receiver is
`undefined` or `null`. -/
def JSVal.optToFixed (v : JSVal) (digits : Nat) : Option NumText :=
  match v with
  | .undefined => none
  | .null => none
  | .nan => some .nan
  | .num q => some (.fixed q digits)

/-- The number `Number(q.toFixed(digits))` in exact arithmetic: `q` rounded to `digits`
decimals, ties away from zero. A double that only approximates a decimal tie is rounded by
JavaScript from its binary value (`1.005.toFixed(2)` is `1.00`); that rounding is not
represented. -/
def toFixedNumber (q : ℚ) (digits : Nat) : ℚ :=
  if q < 0 then -(((Int.floor (-q * 10 ^ digits + 1 / 2) : ℤ) : ℚ) / 10 ^ digits)
  else ((Int.floor (q * 10 ^ digits + 1 / 2) : ℤ) : ℚ) / 10 ^ digits

/-- The expression `Number(v.toFixed(digits))`. -/
def JSVal.numberOfToFixed (v : JSVal) (digits : Nat) : Except JSError JSVal :=
  match v.toFixed digits with
  | .error e => .error e
  | .ok .nan => .ok .nan
  | .ok (.fixed q d) => .ok (.num (toFixedNumber q d))

/-- `Math.round(v)` on any value: `NaN` when `v` converts to `NaN`. -/
def Math.roundVal (v : JSVal) : JSVal :=
  match v.toNumber with
  | some q => .num (Math.round q)
  | none => .nan

/-- The `value` props of the four gauges `Dashboard.jsx` renders for a frame (lines 112-115):
`Math.round(data.mq2_gas)`, `Number(data.mq2_voltage.toFixed(2))`,
`Math.round(data.mq135_air)`, `Number(data.mq135_voltage.toFixed(2))`, evaluated in that
order. -/
def dashboardGaugeValues (data : Frame) : Except JSError (JSVal × JSVal × JSVal × JSVal) :=
  let v1 := Math.roundVal data.mq2_gas
  match data.mq2_voltage.numberOfToFixed 2 with
  | .error e => .error e
  | .ok v2 =>
    let v3 := Math.roundVal data.mq135_air
    match data.mq135_voltage.numberOfToFixed 2 with
    | .error e => .error e
    | .ok v4 => .ok (v1, v2, v3, v4)

/-- The guarded text of the voltage cards of `Dashboard.jsx` (lines 85 and 100):
`data.mq2_voltage ? data.mq2_voltage.toFixed(2) : "0.00"`; `none` stands for `"0.00"`. -/
def dashboardVoltageCard (voltage : JSVal) : Except JSError (Option NumText) :=
  match voltage with
  | .num q => if q = 0 then .ok none else (JSVal.num q).toFixed 2 |>.map some
  | _ => .ok none

/-! ## `useSensorData.js`: the React stream client -/

/-- The state of one `useSensorData` instance: the `data` and `isConnected` it exposes, the
number of `WebSocket` objects `connect` has created (`ws.current` is the latest one, `null`
while there is none), the number of `ws.current.close()` calls made by the hook, the delays
of all `setTimeout(connect, delay)` calls so far (oldest first) and how many of those timers
have not fired yet. -/
structure SensorHook where
  data : Frame
  isConnected : Bool
  sockets : Nat
  closeCalls : Nat
  scheduled : List Nat
  pending : Nat
  deriving DecidableEq, Repr

namespace useSensorData

/-- The initial `data` of the hook. -/
def initialData : Frame :=
  { Frame.empty with
    mq2_gas := .num 0, mq2_voltage := .num 0, mq135_air := .num 0, mq135_voltage := .num 0,
    risk_score := .num 0, status := some "Safe" }

/-- The function `connect`: creates a socket, stores it in `ws.current` and installs the
handlers. -/
def connect (h : SensorHook) : SensorHook :=
  { h with sockets := h.sockets + 1 }

/-- The state after the effect has run on mount: initial state, then `connect()`. -/
def mount : SensorHook :=
  connect { data := initialData, isConnected := false, sockets := 0, closeCalls := 0,
            scheduled := [], pending := 0 }

/-- The handler `ws.current.onopen`. -/
def onopen (h : SensorHook) : SensorHook :=
  { h with isConnected := true }

/-- The handler `ws.current.onmessage`; `parse` is `JSON.parse`, with `none` when it
throws (the `catch` logs and returns). -/
def onmessage (parse : String → Option Frame) (text : String) (h : SensorHook) : SensorHook :=
  match parse text with
  | some parsed => { h with data := parsed }
  | none => h

/-- The handler `ws.current.onclose`: `setIsConnected(false)` and
`setTimeout(connect, 3000)`. -/
def onclose (h : SensorHook) : SensorHook :=
  { h with isConnected := false, scheduled := h.scheduled ++ [3000], pending := h.pending + 1 }

/-- The handler `ws.current.onerror`: logs and calls `ws.current.close()`. -/
def onerror (h : SensorHook) : SensorHook :=
  { h with closeCalls := h.closeCalls + 1 }

/-- A reconnect timer fires: `connect()` runs. Nothing happens when no timer is pending. -/
def timerFires (h : SensorHook) : SensorHook :=
  if h.pending = 0 then h else connect { h with pending := h.pending - 1 }

/-- The cleanup returned by the effect (dispose): `if (ws.current) ws.current.close()`. -/
def cleanup (h : SensorHook) : SensorHook :=
  if h.sockets = 0 then h else { h with closeCalls := h.closeCalls + 1 }

end useSensorData

/-- The events a `useSensorData` instance reacts to. `dispose` is the effect cleanup;
`close` is a close event delivered to `onclose`, whatever caused it. -/
inductive HookEvent where
  | open : HookEvent
  | message (text : String) : HookEvent
  | error : HookEvent
  | close : HookEvent
  | timer : HookEvent
  | dispose : HookEvent
  deriving DecidableEq, Repr

/-- One event handled by the hook. -/
def hookStep (parse : String → Option Frame) (h : SensorHook) : HookEvent → SensorHook
  | .open => useSensorData.onopen h
  | .message text => useSensorData.onmessage parse text h
  | .error => useSensorData.onerror h
  | .close => useSensorData.onclose h
  | .timer => useSensorData.timerFires h
  | .dispose => useSensorData.cleanup h

/-- The events of a list handled by the hook in order. -/
def hookRun (parse : String → Option Frame) (h : SensorHook) (es : List HookEvent) :
    SensorHook :=
  es.foldl (hookStep parse) h

/-! ## `LiveGraphs.jsx`: the graph rolling window -/

/-- `xs.slice(-n)`: the last `n` elements of an array (all of it when it is shorter). -/
def sliceLast (n : Nat) (xs : List α) : List α :=
  xs.drop (xs.length - n)

/-- The `history` state of `LiveGraphs`. -/
structure GraphHistory where
  labels : List String
  temp : List JSVal
  mq2 : List JSVal
  deriving DecidableEq, Repr

namespace LiveGraphs

/-- The initial `history`: three empty series. -/
def initial : GraphHistory :=
  { labels := [], temp := [], mq2 := [] }

/-- The updater passed to `setHistory` by the effect of `LiveGraphs`; `now` is
`new Date().toLocaleTimeString()`. The effect depends on `[data]`, so it runs once for
every frame set by the hook. -/
def push (prev : GraphHistory) (now : String) (data : Frame) : GraphHistory :=
  let newLabels := sliceLast 20 (prev.labels ++ [now])
  let newTemp := sliceLast 20 (prev.temp ++ [data.temperature])
  let newMq2 := sliceLast 20 (prev.mq2 ++ [data.mq2_gas])
  { labels := newLabels, temp := newTemp, mq2 := newMq2 }

/-- A sequence of pushes, each with its clock label and frame, in arrival order. -/
def pushAll (prev : GraphHistory) (samples : List (String × Frame)) : GraphHistory :=
  samples.foldl (fun h x => push h x.1 x.2) prev

end LiveGraphs

/-! ## `Sensors.jsx`: the sensor history -/

/-- An entry of the `history` state of the Sensors page; `timestamp` is the instant (ms)
whose ISO text is stored. -/
structure HistoryEntry where
  timestamp : Nat
  mq2 : JSVal
  mq135 : JSVal
  deriving DecidableEq, Repr

/-- The Sensors page: its `history` and the dependency values
`[data?.mq2_voltage, data?.mq135_voltage]` of the latest render (`none` before mount). -/
structure SensorsPage where
  history : List HistoryEntry
  deps : Option (JSVal × JSVal)
  deriving DecidableEq, Repr

namespace Sensors

/-- The updater of the tracking effect: `[entry, ...prev].slice(0, 100)`. -/
def track (now : Nat) (data : Frame) (prev : List HistoryEntry) : List HistoryEntry :=
  ({ timestamp := now, mq2 := data.mq2_voltage, mq135 := data.mq135_voltage } :: prev).take 100

/-- A render of the page with the hook's `data` at instant `now`: the effect runs only when
one of its dependencies differs from the previous render. -/
def render (now : Nat) (data : Frame) (p : SensorsPage) : SensorsPage :=
  if p.deps = some (data.mq2_voltage, data.mq135_voltage) then p
  else
    { history := track now data p.history
      deps := some (data.mq2_voltage, data.mq135_voltage) }

/-- The page after mounting at instant `now`: first render with the hook's initial data. -/
def mount (now : Nat) : SensorsPage :=
  render now useSensorData.initialData { history := [], deps := none }

/-- The renders caused by a sequence of received frames, each with its instant. -/
def renderAll (p : SensorsPage) (frames : List (Nat × Frame)) : SensorsPage :=
  frames.foldl (fun q x => render x.1 x.2 q) p

end Sensors

/-! ## `Alerts.jsx`: real-time alert detection -/

/-- The message of an alert, kept symbolically: the critical template with the value of
`data.risk_score`, or the warning template with `data.ml_prediction` and the text of
`(data.ml_confidence * 100).toFixed(1)`. -/
inductive AlertMessage where
  | critical (score : JSVal) : AlertMessage
  | warning (prediction : Option String) (confidence : NumText) : AlertMessage
  deriving DecidableEq, Repr

/-- An alert of the Alerts page; `timestamp` is the instant (ms) whose ISO text is stored,
`mq2` and `mq135` hold `data.mq2_voltage?.toFixed(2)` and `data.mq135_voltage?.toFixed(2)`. -/
structure Alert where
  id : Nat
  message : AlertMessage
  severity : String
  timestamp : Nat
  mq2 : Option NumText
  mq135 : Option NumText
  deriving DecidableEq, Repr

/-- The Alerts page: its `alerts` and the dependency values
`[data?.risk_score, data?.ml_prediction]` of the latest render (`none` before mount). -/
structure AlertsPage where
  alerts : List Alert
  deps : Option (JSVal × Option String)
  deriving DecidableEq, Repr

namespace Alerts

/-- The updater `prev => [newAlert, ...prev].slice(0, 100)`. -/
def pushAlert (newAlert : Alert) (prev : List Alert) : List Alert :=
  (newAlert :: prev).take 100

/-- The text of `(data.ml_confidence * 100).toFixed(1)`. -/
def confidenceText (ml_confidence : JSVal) : NumText :=
  match ml_confidence.toNumber with
  | some q => .fixed (q * 100) 1
  | none => .nan

/-- The alert, if any, that one run of the detection effect creates; `now` is the clock
(`Date.now()`, `new Date()`) and `alerts` the list of the current render. -/
def newAlert (now : Nat) (data : Frame) (alerts : List Alert) : Option Alert :=
  if jsGe data.risk_score 100 = true then
    some { id := now, message := .critical data.risk_score, severity := "HIGH",
           timestamp := now, mq2 := data.mq2_voltage.optToFixed 2,
           mq135 := data.mq135_voltage.optToFixed 2 }
  else if jsGe data.risk_score 50 = true ∧ data.ml_prediction ≠ some "SAFE" then
    let timeSinceLastAlert : Int :=
      match alerts.head? with
      | some lastAlert => (now : Int) - (lastAlert.timestamp : Int)
      | none => 10000
    if timeSinceLastAlert > 5000 then
      some { id := now
             message := .warning data.ml_prediction (confidenceText data.ml_confidence)
             severity := "MEDIUM", timestamp := now
             mq2 := data.mq2_voltage.optToFixed 2
             mq135 := data.mq135_voltage.optToFixed 2 }
    else none
  else none

/-- One run of the detection effect on the alert list. -/
def effect (now : Nat) (data : Frame) (alerts : List Alert) : List Alert :=
  match newAlert now data alerts with
  | some a => pushAlert a alerts
  | none => alerts

/-- A render of the page with the hook's `data` at instant `now`: the effect runs only when
`data.risk_score` or `data.ml_prediction` differs from the previous render. -/
def render (now : Nat) (data : Frame) (p : AlertsPage) : AlertsPage :=
  if p.deps = some (data.risk_score, data.ml_prediction) then p
  else
    { alerts := effect now data p.alerts
      deps := some (data.risk_score, data.ml_prediction) }

/-- The page after mounting at instant `now`: first render with the hook's initial data. -/
def mount (now : Nat) : AlertsPage :=
  render now useSensorData.initialData { alerts := [], deps := none }

/-- The renders caused by a sequence of received frames, each with its instant. -/
def renderAll (p : AlertsPage) (frames : List (Nat × Frame)) : AlertsPage :=
  frames.foldl (fun q x => render x.1 x.2 q) p

end Alerts

/-- The specification's bookkeeping for rule 1 of the alert deduplicator: the recorded
status and the instant until which the cooldown is active. -/
structure SpecDedup where
  recordedStatus : String
  cooldownUntil : Nat
  deriving DecidableEq, Repr

/-- The specification's rule 1 effect of emitting a HIGH alert at instant `now`: the
recorded status becomes "Danger" and a cooldown of 30 seconds starts. -/
def SpecDedup.afterHigh (now : Nat) : SpecDedup :=
  { recordedStatus := "Danger", cooldownUntil := now + 30000 }

/-- Whether the specification's cooldown is active at instant `now`. -/
def SpecDedup.cooldownActive (d : SpecDedup) (now : Nat) : Bool :=
  decide (now < d.cooldownUntil)

/-! ## The React pages fed by one hook instance -/

/-- A `useSensorData` instance with the states of the pages that consume its `data`. -/
structure ReactApp where
  hook : SensorHook
  graphs : GraphHistory
  sensors : SensorsPage
  alerts : AlertsPage
  deriving DecidableEq, Repr

/-- A message received by the hook, at instant `now` with clock label `label`: the pages are
rendered again, and their effects considered, only when `setData` was called. -/
def ReactApp.onmessage (parse : String → Option Frame) (text : String) (now : Nat)
    (label : String) (app : ReactApp) : ReactApp :=
  match parse text with
  | none => { app with hook := useSensorData.onmessage parse text app.hook }
  | some parsed =>
    { hook := useSensorData.onmessage parse text app.hook
      graphs := LiveGraphs.push app.graphs label parsed
      sensors := Sensors.render now parsed app.sensors
      alerts := Alerts.render now parsed app.alerts }

/-! ## `dashboard.js`: processing a frame -/

/-- A toast shown by `showToast(message, kind)`: the text of `data.risk_score.toFixed(0)`
placed in the message, and the kind. -/
structure Toast where
  riskScoreText : NumText
  kind : String
  deriving DecidableEq, Repr

/-- The page state `updateDashboard` acts on: the stream client with its connection
indicator, the four gauges, the risk card class, the risk circle, and the alert globals.
`lastAlertStatus`, `alertCooldown` and `showToast` are used by `dashboard.js` but declared
outside it: the two variables are fields here, `showToast` appends to `toasts`, and
`cooldownTimers` counts the pending `setTimeout(() => alertCooldown = false, 30000)`. -/
structure DashboardPage where
  client : StreamClient
  gaugeMQ2 : Chart
  gaugeMQ135 : Chart
  gaugeMQ2V : Chart
  gaugeMQ135V : Chart
  riskCardClassName : String
  risk : RiskUI
  lastAlertStatus : String
  alertCooldown : Bool
  toasts : List Toast
  cooldownTimers : Nat
  deriving DecidableEq, Repr

/-- The result of running a function body: the page as the body left it, and the exception
that ended it, if any. -/
structure Outcome where
  page : DashboardPage
  thrown : Option JSError
  deriving DecidableEq, Repr

/-- The last block of `updateDashboard` (lines 227-250): the connection indicator is
rewritten from `data.sensor_connected`. -/
def updateConnectionStatus (data : Frame) (p : DashboardPage) : DashboardPage :=
  { p with client := onmessage (some data.sensor_connected) p.client }

/-- The function `updateDashboard(data)` of `dashboard.js`. The writes of plain text
(`last-update-time`, the KPI cards, the ML fields, the gas values, `last-updated`, the raw
log) are left out: on the fields of a `Frame` each of them is guarded (`|| 0`, `? :`) and
cannot throw. -/
def updateDashboard (data : Frame) (p : DashboardPage) : Outcome :=
  let p1 : DashboardPage :=
    { p with
      riskCardClassName := riskCardClassName data.risk_score
      gaugeMQ2 := updateGauge p.gaugeMQ2 data.mq2_gas (33 / 10) [3 / 2, 2]
      gaugeMQ135 := updateGauge p.gaugeMQ135 data.mq135_air (33 / 10) [3 / 2, 2]
      gaugeMQ2V := updateGauge p.gaugeMQ2V data.mq2_voltage (33 / 10) [3 / 2, 2]
      gaugeMQ135V := updateGauge p.gaugeMQ135V data.mq135_voltage (33 / 10) [3 / 2, 2]
      risk := updateRisk data.risk_score (data.status.getD "") }
  if data.status = some "Danger" ∧ p1.lastAlertStatus ≠ "Danger" ∧ p1.alertCooldown = false then
    match data.risk_score.toFixed 0 with
    | .error e => { page := p1, thrown := some e }
    | .ok text =>
      let p2 : DashboardPage :=
        { p1 with
          toasts := p1.toasts ++ [{ riskScoreText := text, kind := "danger" }]
          lastAlertStatus := "Danger"
          alertCooldown := true
          cooldownTimers := p1.cooldownTimers + 1 }
      { page := updateConnectionStatus data p2, thrown := none }
  else if data.status = some "Safe" then
    { page := updateConnectionStatus data { p1 with lastAlertStatus := "Safe" }, thrown := none }
  else
    { page := updateConnectionStatus data p1, thrown := none }

/-- The handler `ws.onmessage` of `dashboard.js` on the whole page; `parse` is
`JSON.parse`, with `none` when it throws. Whatever is thrown inside the `try` is caught and
logged. -/
def wsOnmessage (parse : String → Option Frame) (text : String) (p : DashboardPage) :
    DashboardPage :=
  match parse text with
  | none => p
  | some data => (updateDashboard data p).page

/-- The page when the script has loaded: four gauges at `[0, 3.3]`, one socket created, no
alert recorded ("Safe"), no cooldown, and the risk card and risk circle as the document
styles them. -/
def DashboardPage.init (indicator : Indicator) (riskCard : String) (risk : RiskUI) :
    DashboardPage :=
  { client := StreamClient.init indicator
    gaugeMQ2 := createGauge "MQ-2 Gas" "#8B5CF6" (33 / 10)
    gaugeMQ135 := createGauge "MQ-135 Air" "#10B981" (33 / 10)
    gaugeMQ2V := createGauge "MQ-2 Voltage" "#6366F1" (33 / 10)
    gaugeMQ135V := createGauge "MQ-135 Voltage" "#2DD4BF" (33 / 10)
    riskCardClassName := riskCard
    risk := risk
    lastAlertStatus := "Safe"
    alertCooldown := false
    toasts := []
    cooldownTimers := 0 }

/-! ## `dashboard.js`: the alert deduplicator as a state machine -/

/-- The callback of the cooldown timer, `() => alertCooldown = false`, run when a pending
30 000 ms timer fires. Nothing happens when no such timer is pending. -/
def cooldownTimerFires (p : DashboardPage) : DashboardPage :=
  if p.cooldownTimers = 0 then p
  else { p with alertCooldown := false, cooldownTimers := p.cooldownTimers - 1 }

/-- The events the `dashboard.js` page reacts to: a message that parsed to a frame, the
firing of the cooldown timer, and the socket lifecycle events with the reconnect timer. -/
inductive PageEvent where
  | frame (data : Frame) : PageEvent
  | cooldownTimer : PageEvent
  | socketOpen : PageEvent
  | socketError : PageEvent
  | socketClose : PageEvent
  | reconnectTimer : PageEvent
  deriving DecidableEq, Repr

/-- One event handled by the page. -/
def pageStep (p : DashboardPage) : PageEvent → DashboardPage
  | .frame data => (updateDashboard data p).page
  | .cooldownTimer => cooldownTimerFires p
  | .socketOpen => { p with client := onopen p.client }
  | .socketError => { p with client := onerror p.client }
  | .socketClose => { p with client := onclose p.client }
  | .reconnectTimer => { p with client := connectWebSocket p.client }

/-- The events of a list handled by the page in order. -/
def pageRun (p : DashboardPage) (es : List PageEvent) : DashboardPage :=
  es.foldl pageStep p

/-- Whether an event is a frame with status "Safe". -/
def PageEvent.isSafeFrame : PageEvent → Bool
  | .frame data => decide (data.status = some "Safe")
  | _ => false

/-! ## `Alerts.jsx`: filter and CSV export -/

/-- `s.toUpperCase()` on the letters `a`-`z`. -/
def toUpperCase (s : String) : String :=
  String.mk (s.data.map Char.toUpper)

/-- The predicate of `filteredAlerts` for the current `filter` value. -/
def filterPredicate (filter : String) (alert : Alert) : Bool :=
  if filter = "all" then true
  else if filter = "danger" then decide (toUpperCase alert.severity = "HIGH")
  else if filter = "warning" then decide (toUpperCase alert.severity = "MEDIUM")
  else true

/-- The list `filteredAlerts` of the Alerts page. -/
def filteredAlerts (filter : String) (alerts : List Alert) : List Alert :=
  alerts.filter (filterPredicate filter)

/-- The handler `clearAllAlerts`; `confirmed` is the answer of `window.confirm`. -/
def clearAllAlerts (confirmed : Bool) (p : AlertsPage) : AlertsPage :=
  if confirmed = true then { p with alerts := [] } else p

/-- The renderers `exportCSV` relies on and that are not part of the page: the text of
`new Date(timestamp).toLocaleString()`, the text of an alert message, and the text of a
`toFixed` result. -/
structure CsvRender where
  localeString : Nat → String
  messageText : AlertMessage → String
  numText : NumText → String

/-- The expression `field || "N/A"` on a field that is `undefined` or a string. -/
def orNA (field : Option String) : String :=
  match field with
  | some text => if text = "" then "N/A" else text
  | none => "N/A"

/-- The header row of `exportCSV`. -/
def csvHeader : List String :=
  ["Timestamp", "Severity", "Message", "MQ2 (V)", "MQ135 (V)"]

/-- The row `exportCSV` builds for one alert. -/
def csvRow (r : CsvRender) (a : Alert) : List String :=
  [r.localeString a.timestamp, a.severity, r.messageText a.message,
    orNA (a.mq2.map r.numText), orNA (a.mq135.map r.numText)]

/-- The array of rows of `exportCSV`: the header, then one row per alert. -/
def csvRows (r : CsvRender) (alerts : List Alert) : List (List String) :=
  csvHeader :: alerts.map (csvRow r)

/-- The lines of the export: each row joined with `,`. -/
def csvLines (r : CsvRender) (alerts : List Alert) : List String :=
  (csvRows r alerts).map (fun row => ",".intercalate row)

/-- The text `csv` of `exportCSV`: the lines joined with a line feed. -/
def exportCSV (r : CsvRender) (alerts : List Alert) : String :=
  "\n".intercalate (csvLines r alerts)

/-! ## Order of the buckets and of the clock -/

/-- The severity order `Normal < Warn < Danger`. -/
def Bucket.rank : Bucket → Nat
  | .Normal => 0
  | .Warn => 1
  | .Danger => 2

/-- The instants of a sequence of frames never go back, starting from instant `t`. -/
def clockNonDecreasing (t : Nat) : List (Nat × Frame) → Bool
  | [] => true
  | x :: xs => decide (t ≤ x.1) && clockNonDecreasing x.1 xs

/-- The instants of a sequence of frames strictly increase, starting after instant `t`. -/
def clockIncreasing (t : Nat) : List (Nat × Frame) → Bool
  | [] => true
  | x :: xs => decide (t < x.1) && clockIncreasing x.1 xs

/-! ## Sample inputs -/

/-- A `JSON.parse` stand-in for concrete traces: the text `frame` parses to the empty
object, every other text is rejected. -/
def parseSample (text : String) : Option Frame :=
  if text = "frame" then some Frame.empty else none

/-- A mounted React application at instant `0`: every page has run its effects once on the
hook's initial data. -/
def ReactApp.sample : ReactApp :=
  { hook := useSensorData.onopen useSensorData.mount
    graphs := LiveGraphs.push LiveGraphs.initial "12:00:00" useSensorData.initialData
    sensors := Sensors.mount 0
    alerts := Alerts.mount 0 }

/-- The `dashboard.js` page after load and a successful open. -/
def DashboardPage.sample : DashboardPage :=
  let p := DashboardPage.init ⟨"", "", ""⟩ "" ⟨"", "", "", ""⟩
  { p with client := onopen p.client }

/-- A frame with status "Danger" and no `risk_score`. -/
def Frame.dangerNoScore : Frame :=
  { Frame.empty with status := some "Danger" }

/-- A frame with a `risk_score` and no voltages. -/
def Frame.scoreOnly : Frame :=
  { Frame.empty with risk_score := JSVal.num 10, status := some "Safe" }

/-- A received frame with both voltages at 1 V. -/
def Frame.oneVolt : Frame :=
  { useSensorData.initialData with mq2_voltage := JSVal.num 1, mq135_voltage := JSVal.num 1 }

/-- A frame with `risk_score` `score` and `ml_prediction` `prediction`, the other fields as
in the initial data. -/
def Frame.withRisk (score : ℚ) (prediction : String) : Frame :=
  { useSensorData.initialData with
    risk_score := JSVal.num score, ml_prediction := some prediction }

/-- The HIGH alert the detection effect builds at instant `now` for `data`. -/
def Alerts.highAlert (now : Nat) (data : Frame) : Alert :=
  { id := now, message := .critical data.risk_score, severity := "HIGH", timestamp := now,
    mq2 := data.mq2_voltage.optToFixed 2, mq135 := data.mq135_voltage.optToFixed 2 }

/-- A frame with status `status`, `risk_score` `score` and `sensor_connected`
`connected`, the other fields absent. -/
def Frame.withStatus (status : String) (score : ℚ) (connected : Bool) : Frame :=
  { Frame.empty with
    status := some status, risk_score := JSVal.num score, sensor_connected := connected }

/-- Renderers for concrete exports: fixed texts that depend only on the kind of value. -/
def CsvRender.sample : CsvRender :=
  { localeString := fun _ => "date"
    messageText := fun m =>
      match m with
      | .critical _ => "critical"
      | .warning _ _ => "warning"
    numText := fun _ => "1.00" }

/-- The MEDIUM alert the detection effect builds at instant `now` for `data`. -/
def Alerts.mediumAlert (now : Nat) (data : Frame) : Alert :=
  { id := now
    message := .warning data.ml_prediction (Alerts.confidenceText data.ml_confidence)
    severity := "MEDIUM", timestamp := now
    mq2 := data.mq2_voltage.optToFixed 2
    mq135 := data.mq135_voltage.optToFixed 2 }

/-- The time since the alert at the head of the list, as the detection effect computes it:
`10000` when the list is empty. -/
def Alerts.timeSinceLastAlert (now : Nat) (alerts : List Alert) : Int :=
  match alerts.head? with
  | some lastAlert => (now : Int) - (lastAlert.timestamp : Int)
  | none => 10000

/-- The fields a reader of the export obtains from a line: the line cut at every comma. -/
def splitOnComma : List Char → List (List Char)
  | [] => [[]]
  | c :: cs =>
    if c = ',' then [] :: splitOnComma cs
    else
      match splitOnComma cs with
      | [] => [[c]]
      | field :: fields => (c :: field) :: fields

/-- The comma-separated fields of a line of the export. -/
def csvFields (line : String) : List String :=
  (splitOnComma line.data).map String.mk

/-- Number of commas in a text. -/
def countCommas (text : String) : Nat :=
  text.data.count ','

/-- The texts of a browser with locale `en-US` in UTC for the alert raised at instant
1000 ms by a frame with `risk_score` 100 and both voltages 0: `toLocaleString()` gives
`1/1/1970, 12:00:01 AM`, the message is the critical template with score 100 and
`toFixed(2)` of a voltage 0 gives `0.00`. -/
def CsvRender.enUS : CsvRender :=
  { localeString := fun _ => "1/1/1970, 12:00:01 AM"
    messageText := fun _ => "Critical Risk Detected! Score: 100"
    numText := fun _ => "0.00" }

/-! ## Basic facts about the gauge helpers -/

@[simp] theorem gaugeValue_num (q : ℚ) : gaugeValue (JSVal.num q) = q := by
  simp [gaugeValue, isNaN, JSVal.toNumber]

@[simp] theorem gaugeValue_undefined : gaugeValue JSVal.undefined = 0 := by
  simp [gaugeValue]

@[simp] theorem gaugeValue_null : gaugeValue JSVal.null = 0 := by
  simp [gaugeValue]

@[simp] theorem gaugeValue_nan : gaugeValue JSVal.nan = 0 := by
  simp [gaugeValue, isNaN, JSVal.toNumber]

theorem displayValue_eq (chart : Chart) (value : JSVal) (max : ℚ) (thresholds : List ℚ) :
    displayValue chart value max thresholds = Max.max 0 (Min.min (gaugeValue value) max) := by
  rfl

theorem remaining_eq (chart : Chart) (value : JSVal) (max : ℚ) (thresholds : List ℚ) :
    remaining chart value max thresholds = Max.max 0 (max - gaugeValue value) := by
  rfl

theorem writtenColor_eq (chart : Chart) (value : JSVal) (max : ℚ) (thresholds : List ℚ) :
    writtenColor chart value max thresholds
      = gaugeColor chart.backgroundColor0 (gaugeValue value) thresholds := by
  rfl

/-- For a value inside `[0, max]` the two numbers written by `updateGauge` add up to `max`. -/
theorem displayValue_add_remaining_of_mem (chart : Chart) (value max : ℚ)
    (thresholds : List ℚ) (h0 : 0 ≤ value) (h1 : value ≤ max) :
    displayValue chart (JSVal.num value) max thresholds
      + remaining chart (JSVal.num value) max thresholds = max := by
  rw [displayValue_eq, remaining_eq, gaugeValue_num, min_eq_left h1, max_eq_right h0,
    max_eq_right (sub_nonneg.mpr h1)]
  ring

/-! ## Gauge claims -/

/-- C1 (fails on the code): for a negative value the sum `displayValue + remaining` written
by `updateGauge` is not `max`. The frame field `-1` on the 3.3 V gauge writes `0` and `4.3`,
and the gauge plugin then prints `4.3` as the maximum label. -/
theorem updateGauge_negative_value_sum_exceeds_max :
    (updateDashboardGauge gaugeMQ2 (JSVal.num (-1))).data0 = 0
    ∧ (updateDashboardGauge gaugeMQ2 (JSVal.num (-1))).data1 = 43 / 10
    ∧ (updateDashboardGauge gaugeMQ2 (JSVal.num (-1))).data0
        + (updateDashboardGauge gaugeMQ2 (JSVal.num (-1))).data1 ≠ 33 / 10
    ∧ gaugeMetaTotal (updateDashboardGauge gaugeMQ2 (JSVal.num (-1))) (33 / 10) = 43 / 10 := by
  have h0 : (updateDashboardGauge gaugeMQ2 (JSVal.num (-1))).data0 = 0 := by
    show Max.max (0 : ℚ) (Min.min (gaugeValue (JSVal.num (-1))) (33 / 10)) = 0
    rw [gaugeValue_num]; norm_num
  have h1 : (updateDashboardGauge gaugeMQ2 (JSVal.num (-1))).data1 = 43 / 10 := by
    show Max.max (0 : ℚ) (33 / 10 - gaugeValue (JSVal.num (-1))) = 43 / 10
    rw [gaugeValue_num]; norm_num
  refine ⟨h0, h1, ?_, ?_⟩
  · rw [h0, h1]; norm_num
  · unfold gaugeMetaTotal
    rw [h0, h1]; norm_num

/-- C2: for a numeric value and `max ≥ 0`, `remaining = 0` exactly when `value ≥ max`, and
then `displayValue = max`, so that `displayValue + remaining = max`. -/
theorem updateGauge_remaining_zero_iff (chart : Chart) (value max : ℚ)
    (thresholds : List ℚ) (hmax : 0 ≤ max) :
    (remaining chart (JSVal.num value) max thresholds = 0 ↔ value ≥ max)
    ∧ (value ≥ max →
        displayValue chart (JSVal.num value) max thresholds = max
        ∧ displayValue chart (JSVal.num value) max thresholds
            + remaining chart (JSVal.num value) max thresholds = max) := by
  have hrem : remaining chart (JSVal.num value) max thresholds = 0 ↔ value ≥ max := by
    rw [remaining_eq, gaugeValue_num]
    constructor
    · intro h
      have h2 : max - value ≤ Max.max 0 (max - value) := le_max_right _ _
      rw [h] at h2
      linarith
    · intro h
      exact max_eq_left (by linarith)
  refine ⟨hrem, fun h => ?_⟩
  have hd : displayValue chart (JSVal.num value) max thresholds = max := by
    rw [displayValue_eq, gaugeValue_num, min_eq_right h, max_eq_right hmax]
  rw [hd, hrem.mpr h, add_zero]
  exact ⟨rfl, rfl⟩

theorem updateGauge_remaining_zero_iff_witness :
    (0 : ℚ) ≤ 33 / 10 ∧ (5 : ℚ) ≥ 33 / 10
    ∧ remaining gaugeMQ2 (JSVal.num 5) (33 / 10) [3 / 2, 2] = 0
    ∧ displayValue gaugeMQ2 (JSVal.num 5) (33 / 10) [3 / 2, 2] = 33 / 10
    ∧ displayValue gaugeMQ2 (JSVal.num 5) (33 / 10) [3 / 2, 2]
        + remaining gaugeMQ2 (JSVal.num 5) (33 / 10) [3 / 2, 2] = 33 / 10 :=
  ⟨by norm_num, by norm_num,
    (updateGauge_remaining_zero_iff gaugeMQ2 5 (33 / 10) [3 / 2, 2] (by norm_num)).1.mpr
      (by norm_num),
    (updateGauge_remaining_zero_iff gaugeMQ2 5 (33 / 10) [3 / 2, 2] (by norm_num)).2
      (by norm_num)⟩

/-- C3: for every value (valid or not) and `max ≥ 0`, the `displayValue` that `updateGauge`
writes lies in `[0, max]` and is `clamp(value, 0, max)` of the value after the guard (the
value itself when it is a number); the `remaining` it writes is never negative. -/
theorem updateGauge_displayValue_clamped (chart : Chart) (value : JSVal) (max : ℚ)
    (thresholds : List ℚ) (hmax : 0 ≤ max) :
    0 ≤ displayValue chart value max thresholds
    ∧ displayValue chart value max thresholds ≤ max
    ∧ displayValue chart value max thresholds = clamp (gaugeValue value) 0 max
    ∧ (∀ v : ℚ, displayValue chart (JSVal.num v) max thresholds = clamp v 0 max)
    ∧ 0 ≤ remaining chart value max thresholds := by
  have hclamp : ∀ x : ℚ, Max.max 0 (Min.min x max) = clamp x 0 max := by
    intro x
    unfold clamp
    split_ifs with h1 h2
    · exact max_eq_left (le_trans (min_le_left _ _) h1.le)
    · rw [min_eq_right h2.le, max_eq_right hmax]
    · rw [min_eq_left (not_lt.mp h2), max_eq_right (not_lt.mp h1)]
  refine ⟨?_, ?_, ?_, ?_, ?_⟩
  · rw [displayValue_eq]; exact le_max_left _ _
  · rw [displayValue_eq]; exact max_le hmax (min_le_right _ _)
  · rw [displayValue_eq]; exact hclamp _
  · intro v; rw [displayValue_eq, gaugeValue_num]; exact hclamp v
  · rw [remaining_eq]; exact le_max_left _ _

theorem updateGauge_displayValue_clamped_witness :
    (0 : ℚ) ≤ 33 / 10
    ∧ (0 ≤ displayValue gaugeMQ2 (JSVal.num (-1)) (33 / 10) [3 / 2, 2]
      ∧ displayValue gaugeMQ2 (JSVal.num (-1)) (33 / 10) [3 / 2, 2] ≤ 33 / 10
      ∧ displayValue gaugeMQ2 (JSVal.num (-1)) (33 / 10) [3 / 2, 2]
          = clamp (gaugeValue (JSVal.num (-1))) 0 (33 / 10)
      ∧ (∀ v : ℚ, displayValue gaugeMQ2 (JSVal.num v) (33 / 10) [3 / 2, 2]
          = clamp v 0 (33 / 10))
      ∧ 0 ≤ remaining gaugeMQ2 (JSVal.num (-1)) (33 / 10) [3 / 2, 2]) :=
  ⟨by norm_num,
    updateGauge_displayValue_clamped gaugeMQ2 (JSVal.num (-1)) (33 / 10) [3 / 2, 2]
      (by norm_num)⟩

theorem Math.round_intCast (n : ℤ) : Math.round (n : ℚ) = n := by
  unfold Math.round
  have h : Int.floor ((n : ℚ) + 1 / 2) = n := by
    rw [Int.floor_eq_iff]
    constructor <;> norm_num
  rw [h]

/-- C4 (fails on the code): `CircularGauge` does not clamp. A reading of 600 ppm on the
500 ppm gauge of `Dashboard.jsx` gives the segments `[600, -100]`: the first is above
`max`, the second is negative, while the unused `percentage` is capped at 100. -/
theorem CircularGauge_overshoot_negative_remaining :
    (dashboardPpmGauge 600).data0 = 600
    ∧ (dashboardPpmGauge 600).data1 = -100
    ∧ (dashboardPpmGauge 600).data1 < 0
    ∧ (dashboardPpmGauge 600).data0 ≠ clamp 600 0 500
    ∧ (dashboardPpmGauge 600).percentage = 100
    ∧ displayValue gaugeMQ2 (JSVal.num 600) 500 [] = 500
    ∧ remaining gaugeMQ2 (JSVal.num 600) 500 [] = 0 := by
  have hr : Math.round 600 = 600 := by
    have := Math.round_intCast 600
    simpa using this
  have h0 : (dashboardPpmGauge 600).data0 = 600 := hr
  have h1 : (dashboardPpmGauge 600).data1 = -100 := by
    show (500 : ℚ) - Math.round 600 = -100
    rw [hr]; norm_num
  have hp : (dashboardPpmGauge 600).percentage = 100 := by
    show Min.min ((Math.round 600 / 500) * 100) (100 : ℚ) = 100
    rw [hr]; norm_num
  refine ⟨h0, h1, ?_, ?_, hp, ?_, ?_⟩
  · rw [h1]; norm_num
  · rw [h0]; norm_num [clamp]
  · rw [displayValue_eq, gaugeValue_num]; norm_num
  · rw [remaining_eq, gaugeValue_num]; norm_num

/-- C5: an invalid gauge input is treated as `0`. For every `max` and thresholds,
`updateGauge` called with `undefined`, `null` or `NaN` writes exactly what it writes for the
value `0`, colour included: `displayValue = 0` and `remaining = max` for every gauge maximum
`max ≥ 0` (every gauge of the page has `max = 3.3`); `remaining` is `max(0, max)` in
general. The function is total: nothing in its body throws on these inputs. -/
theorem updateGauge_invalid_as_zero (chart : Chart) (value : JSVal) (max : ℚ)
    (thresholds : List ℚ)
    (hv : value = JSVal.undefined ∨ value = JSVal.null ∨ value = JSVal.nan) :
    updateGauge chart value max thresholds = updateGauge chart (JSVal.num 0) max thresholds
    ∧ displayValue chart value max thresholds = 0
    ∧ remaining chart value max thresholds = Max.max 0 max
    ∧ (0 ≤ max → remaining chart value max thresholds = max)
    ∧ writtenColor chart value max thresholds
        = writtenColor chart (JSVal.num 0) max thresholds := by
  have hg : gaugeValue value = 0 := by
    rcases hv with h | h | h <;> subst h <;> simp
  have hu : updateGauge chart value max thresholds
      = updateGauge chart (JSVal.num 0) max thresholds := by
    unfold updateGauge
    rw [hg, gaugeValue_num]
  have hr : remaining chart value max thresholds = Max.max 0 max := by
    rw [remaining_eq, hg, sub_zero]
  refine ⟨hu, ?_, hr, ?_, ?_⟩
  · rw [displayValue_eq, hg]
    rcases le_total 0 max with h | h
    · rw [min_eq_left h, max_self]
    · rw [min_eq_right h, max_eq_left h]
  · intro h
    rw [hr, max_eq_right h]
  · unfold writtenColor
    rw [hu]

theorem updateGauge_invalid_as_zero_witness :
    (JSVal.nan = JSVal.undefined ∨ JSVal.nan = JSVal.null ∨ JSVal.nan = JSVal.nan)
    ∧ (0 : ℚ) ≤ 33 / 10
    ∧ updateGauge gaugeMQ2 JSVal.nan (33 / 10) [3 / 2, 2]
        = updateGauge gaugeMQ2 (JSVal.num 0) (33 / 10) [3 / 2, 2]
    ∧ displayValue gaugeMQ2 JSVal.nan (33 / 10) [3 / 2, 2] = 0
    ∧ remaining gaugeMQ2 JSVal.nan (33 / 10) [3 / 2, 2] = 33 / 10 :=
  ⟨Or.inr (Or.inr rfl), by norm_num,
    (updateGauge_invalid_as_zero gaugeMQ2 JSVal.nan (33 / 10) [3 / 2, 2]
      (Or.inr (Or.inr rfl))).1,
    (updateGauge_invalid_as_zero gaugeMQ2 JSVal.nan (33 / 10) [3 / 2, 2]
      (Or.inr (Or.inr rfl))).2.1,
    (updateGauge_invalid_as_zero gaugeMQ2 JSVal.nan (33 / 10) [3 / 2, 2]
      (Or.inr (Or.inr rfl))).2.2.2.1 (by norm_num)⟩

/-! ## Threshold classifiers -/

theorem gaugeColor_eq_classify (current : String) (value warn danger : ℚ) (rest : List ℚ) :
    gaugeColor current value (warn :: danger :: rest) = (classify value warn danger).color := by
  simp only [gaugeColor, classify]
  split_ifs <;> rfl

theorem classify_color_danger (b : Bucket) : b.color = "#EF4444" ↔ b = Bucket.Danger := by
  cases b <;> simp [Bucket.color]

theorem classify_color_warn (b : Bucket) : b.color = "#F59E0B" ↔ b = Bucket.Warn := by
  cases b <;> simp [Bucket.color]

theorem classify_color_normal (b : Bucket) : b.color = "#10B981" ↔ b = Bucket.Normal := by
  cases b <;> simp [Bucket.color]

theorem classify_eq_danger (value warn danger : ℚ) :
    classify value warn danger = Bucket.Danger ↔ value > danger := by
  unfold classify
  split_ifs <;> simp [*]

theorem classify_eq_warn (value warn danger : ℚ) :
    classify value warn danger = Bucket.Warn ↔ (value > warn ∧ ¬ value > danger) := by
  unfold classify
  split_ifs <;> simp [*]

theorem classify_eq_normal (value warn danger : ℚ) :
    classify value warn danger = Bucket.Normal ↔ (¬ value > warn ∧ ¬ value > danger) := by
  unfold classify
  split_ifs <;> simp [*]

/-- C6: the threshold classifier inside `updateGauge` is strict. With thresholds
`[warn, danger]` the colour written is red iff `value > danger`, amber iff `value > warn`
and not `value > danger`, green otherwise; it is the colour of `classify(value, [warn,
danger])`. A value equal to a threshold stays in the lower bucket: `2.0` against
`[1.5, 2.0]` is Warn and `2.01` is Danger. -/
theorem updateGauge_classifier_strict (chart : Chart) (value max warn danger : ℚ)
    (rest : List ℚ) :
    (writtenColor chart (JSVal.num value) max (warn :: danger :: rest) = "#EF4444"
        ↔ value > danger)
    ∧ (writtenColor chart (JSVal.num value) max (warn :: danger :: rest) = "#F59E0B"
        ↔ (value > warn ∧ ¬ value > danger))
    ∧ (writtenColor chart (JSVal.num value) max (warn :: danger :: rest) = "#10B981"
        ↔ (¬ value > warn ∧ ¬ value > danger))
    ∧ writtenColor chart (JSVal.num value) max (warn :: danger :: rest)
        = (classify value warn danger).color
    ∧ classify 2 (3 / 2) 2 = Bucket.Warn
    ∧ classify (201 / 100) (3 / 2) 2 = Bucket.Danger
    ∧ writtenColor chart (JSVal.num 2) max [3 / 2, 2] = "#F59E0B"
    ∧ writtenColor chart (JSVal.num (201 / 100)) max [3 / 2, 2] = "#EF4444"
    ∧ writtenColor chart (JSVal.num danger) max (warn :: danger :: rest) ≠ "#EF4444"
    ∧ writtenColor chart (JSVal.num warn) max (warn :: danger :: rest) ≠ "#F59E0B" := by
  have hc : ∀ v w d : ℚ, ∀ r : List ℚ,
      writtenColor chart (JSVal.num v) max (w :: d :: r) = (classify v w d).color := by
    intro v w d r
    rw [writtenColor_eq, gaugeValue_num, gaugeColor_eq_classify]
  have h2 : classify 2 (3 / 2) 2 = Bucket.Warn := by
    rw [classify_eq_warn]; norm_num
  have h201 : classify (201 / 100) (3 / 2) 2 = Bucket.Danger := by
    rw [classify_eq_danger]; norm_num
  refine ⟨?_, ?_, ?_, hc _ _ _ _, h2, h201, ?_, ?_, ?_, ?_⟩
  · rw [hc, classify_color_danger, classify_eq_danger]
  · rw [hc, classify_color_warn, classify_eq_warn]
  · rw [hc, classify_color_normal, classify_eq_normal]
  · rw [hc, h2]; rfl
  · rw [hc, h201]; rfl
  · rw [hc, Ne, classify_color_danger, classify_eq_danger]; exact lt_irrefl _
  · rw [hc, Ne, classify_color_warn, classify_eq_warn]
    exact fun h => lt_irrefl _ h.1

/-! ### `getSensorStatus` -/

theorem jsGe_num (q b : ℚ) : jsGe (JSVal.num q) b = decide (q ≥ b) := rfl

theorem jsGt_num (q b : ℚ) : jsGt (JSVal.num q) b = decide (q > b) := rfl

theorem getSensorStatus_text_critical (v : ℚ) :
    (getSensorStatus (JSVal.num v)).text = "CRITICAL" ↔ v ≥ 2 := by
  unfold getSensorStatus
  simp only [jsGe_num, decide_eq_true_eq]
  split_ifs <;> simp [*]

theorem getSensorStatus_text_warning (v : ℚ) :
    (getSensorStatus (JSVal.num v)).text = "WARNING" ↔ (v ≥ 3 / 2 ∧ ¬ v ≥ 2) := by
  unfold getSensorStatus
  simp only [jsGe_num, decide_eq_true_eq]
  split_ifs <;> simp [*]

theorem getSensorStatus_text_safe (v : ℚ) :
    (getSensorStatus (JSVal.num v)).text = "SAFE" ↔ ¬ v ≥ 3 / 2 := by
  unfold getSensorStatus
  simp only [jsGe_num, decide_eq_true_eq]
  split_ifs with h1 h2 <;> simp [*]
  linarith

/-- C7 (as stated, fails): `getSensorStatus` compares with `>=`, so a voltage equal to a
threshold lands in the upper bucket: `getSensorStatus(2.0)` is CRITICAL, not WARNING, and
`getSensorStatus(1.5)` is WARNING, not SAFE, while the gauge classifier gives Warn and
Normal there. -/
theorem getSensorStatus_threshold_is_upper_bucket :
    (getSensorStatus (JSVal.num 2)).text = "CRITICAL"
    ∧ (getSensorStatus (JSVal.num 2)).text ≠ "WARNING"
    ∧ (getSensorStatus (JSVal.num (3 / 2))).text = "WARNING"
    ∧ (getSensorStatus (JSVal.num (3 / 2))).text ≠ "SAFE"
    ∧ (getSensorStatus (JSVal.num 2)).text ≠ (classify 2 (3 / 2) 2).statusText
    ∧ (getSensorStatus (JSVal.num (3 / 2))).text
        ≠ (classify (3 / 2) (3 / 2) 2).statusText := by
  have h2 : (getSensorStatus (JSVal.num 2)).text = "CRITICAL" := by
    rw [getSensorStatus_text_critical]
  have h15 : (getSensorStatus (JSVal.num (3 / 2))).text = "WARNING" := by
    rw [getSensorStatus_text_warning]; norm_num
  have c2 : classify 2 (3 / 2) 2 = Bucket.Warn := by
    rw [classify_eq_warn]; norm_num
  have c15 : classify (3 / 2) (3 / 2) 2 = Bucket.Normal := by
    rw [classify_eq_normal]; norm_num
  refine ⟨h2, ?_, h15, ?_, ?_, ?_⟩
  · rw [h2]; decide
  · rw [h15]; decide
  · rw [h2, c2]; decide
  · rw [h15, c15]; decide

/-- C7 (amended): `getSensorStatus` is inclusive. For every voltage it is CRITICAL iff
`voltage ≥ 2.0`, WARNING iff `1.5 ≤ voltage < 2.0`, SAFE iff `voltage < 1.5`; a voltage
equal to a threshold is in the upper bucket, and for every voltage other than `1.5` and
`2.0` the status is the one of the gauge classifier `classify(voltage, [1.5, 2.0])`. -/
theorem getSensorStatus_inclusive (v : ℚ) :
    ((getSensorStatus (JSVal.num v)).text = "CRITICAL" ↔ v ≥ 2)
    ∧ ((getSensorStatus (JSVal.num v)).text = "WARNING" ↔ (3 / 2 ≤ v ∧ v < 2))
    ∧ ((getSensorStatus (JSVal.num v)).text = "SAFE" ↔ v < 3 / 2)
    ∧ (getSensorStatus (JSVal.num 2)).text = "CRITICAL"
    ∧ (getSensorStatus (JSVal.num (3 / 2))).text = "WARNING"
    ∧ (v ≠ 3 / 2 → v ≠ 2 →
        (getSensorStatus (JSVal.num v)).text = (classify v (3 / 2) 2).statusText) := by
  refine ⟨getSensorStatus_text_critical v, ?_, ?_, ?_, ?_, ?_⟩
  · rw [getSensorStatus_text_warning, not_le]
  · rw [getSensorStatus_text_safe, not_le]
  · rw [getSensorStatus_text_critical]
  · rw [getSensorStatus_text_warning]; norm_num
  · intro h1 h2
    rcases lt_trichotomy v (3 / 2) with h | h | h
    · have hs := (getSensorStatus_text_safe v).mpr (not_le.mpr h)
      have hc : classify v (3 / 2) 2 = Bucket.Normal := by
        rw [classify_eq_normal]; constructor <;> linarith
      rw [hs, hc]; rfl
    · exact absurd h h1
    · rcases lt_trichotomy v 2 with g | g | g
      · have hs := (getSensorStatus_text_warning v).mpr ⟨h.le, not_le.mpr g⟩
        have hc : classify v (3 / 2) 2 = Bucket.Warn := by
          rw [classify_eq_warn]; exact ⟨h, not_lt.mpr g.le⟩
        rw [hs, hc]; rfl
      · exact absurd g h2
      · have hs := (getSensorStatus_text_critical v).mpr g.le
        have hc : classify v (3 / 2) 2 = Bucket.Danger := by
          rw [classify_eq_danger]; exact g
        rw [hs, hc]; rfl

theorem getSensorStatus_inclusive_witness :
    (1 : ℚ) ≠ 3 / 2 ∧ (1 : ℚ) ≠ 2
    ∧ (getSensorStatus (JSVal.num 1)).text = "SAFE"
    ∧ (getSensorStatus (JSVal.num 1)).text = (classify 1 (3 / 2) 2).statusText :=
  ⟨by norm_num, by norm_num,
    (getSensorStatus_inclusive 1).2.2.1.mpr (by norm_num),
    (getSensorStatus_inclusive 1).2.2.2.2.2 (by norm_num) (by norm_num)⟩

/-! ### Score-based status -/

theorem getStatusColor_eq_classify (s : ℚ) :
    getStatusColor (JSVal.num s) = (classify s 30 70).color := by
  simp only [getStatusColor, classify, jsGt_num, decide_eq_true_eq]
  split_ifs <;> rfl

theorem updateRisk_color_eq_classify (s : ℚ) (status : String) :
    updateRisk (JSVal.num s) status
      = { riskValColor := (classify s 30 70).color, riskStatusText := status,
          riskStatusColor := (classify s 30 70).color,
          riskCircleBorderColor := (classify s 30 70).color } := by
  simp only [updateRisk, classify, jsGt_num, decide_eq_true_eq]
  split_ifs <;> rfl

theorem riskCardClassName_eq_classify (s : ℚ) :
    riskCardClassName (JSVal.num s) = (classify s 30 70).cardClassName := by
  simp only [riskCardClassName, classify, jsGt_num, decide_eq_true_eq]
  split_ifs <;> rfl

theorem cardClassName_danger (b : Bucket) :
    b.cardClassName = Bucket.Danger.cardClassName ↔ b = Bucket.Danger := by
  cases b <;> simp [Bucket.cardClassName]

theorem cardClassName_warn (b : Bucket) :
    b.cardClassName = Bucket.Warn.cardClassName ↔ b = Bucket.Warn := by
  cases b <;> simp [Bucket.cardClassName]

theorem cardClassName_normal (b : Bucket) :
    b.cardClassName = Bucket.Normal.cardClassName ↔ b = Bucket.Normal := by
  cases b <;> simp [Bucket.cardClassName]

theorem classify_score_danger (s : ℚ) : classify s 30 70 = Bucket.Danger ↔ s > 70 :=
  classify_eq_danger s 30 70

theorem classify_score_warn (s : ℚ) : classify s 30 70 = Bucket.Warn ↔ (30 < s ∧ s ≤ 70) := by
  rw [classify_eq_warn, not_lt]

theorem classify_score_normal (s : ℚ) : classify s 30 70 = Bucket.Normal ↔ s ≤ 30 := by
  rw [classify_eq_normal, not_lt, not_lt]
  constructor
  · exact fun h => h.1
  · exact fun h => ⟨h, by linarith⟩

/-- C8: the score-based status uses the strict cutoffs 70 and 30. For every risk score,
`getStatusColor` (Dashboard.jsx), `updateRisk` and the risk-card branch of
`updateDashboard` (dashboard.js) give red iff `score > 70`, amber iff `30 < score ≤ 70`,
green iff `score ≤ 30`; each is the rendering of `classify(score, [30, 70])`, and
`getStatusColor` is the colour `updateGauge` picks for thresholds `[30, 70]`. -/
theorem score_status_strict (s : ℚ) (status : String) (chart : Chart) (max : ℚ) :
    ((getStatusColor (JSVal.num s) = "#EF4444" ↔ s > 70)
      ∧ (getStatusColor (JSVal.num s) = "#F59E0B" ↔ (30 < s ∧ s ≤ 70))
      ∧ (getStatusColor (JSVal.num s) = "#10B981" ↔ s ≤ 30))
    ∧ (((updateRisk (JSVal.num s) status).riskValColor = "#EF4444" ↔ s > 70)
      ∧ ((updateRisk (JSVal.num s) status).riskValColor = "#F59E0B" ↔ (30 < s ∧ s ≤ 70))
      ∧ ((updateRisk (JSVal.num s) status).riskValColor = "#10B981" ↔ s ≤ 30))
    ∧ ((riskCardClassName (JSVal.num s)
          = "bg-gradient-to-br from-red-500 to-red-600 text-white p-4 rounded-xl shadow-lg"
          ↔ s > 70)
      ∧ (riskCardClassName (JSVal.num s)
          = "bg-gradient-to-br from-yellow-500 to-orange-600 text-white p-4 rounded-xl shadow-lg"
          ↔ (30 < s ∧ s ≤ 70))
      ∧ (riskCardClassName (JSVal.num s)
          = "bg-gradient-to-br from-green-500 to-green-600 text-white p-4 rounded-xl shadow-lg"
          ↔ s ≤ 30))
    ∧ getStatusColor (JSVal.num s) = (classify s 30 70).color
    ∧ (updateRisk (JSVal.num s) status).riskValColor = (classify s 30 70).color
    ∧ (updateRisk (JSVal.num s) status).riskStatusColor = (classify s 30 70).color
    ∧ (updateRisk (JSVal.num s) status).riskCircleBorderColor = (classify s 30 70).color
    ∧ riskCardClassName (JSVal.num s) = (classify s 30 70).cardClassName
    ∧ getStatusColor (JSVal.num s) = writtenColor chart (JSVal.num s) max [30, 70]
    ∧ getStatusColor (JSVal.num 70) = "#F59E0B"
    ∧ getStatusColor (JSVal.num 30) = "#10B981" := by
  have hu := updateRisk_color_eq_classify s status
  have hv : (updateRisk (JSVal.num s) status).riskValColor = (classify s 30 70).color := by
    rw [hu]
  refine ⟨⟨?_, ?_, ?_⟩, ⟨?_, ?_, ?_⟩, ⟨?_, ?_, ?_⟩, getStatusColor_eq_classify s, hv,
    by rw [hu], by rw [hu], riskCardClassName_eq_classify s, ?_, ?_, ?_⟩
  · rw [getStatusColor_eq_classify, classify_color_danger, classify_score_danger]
  · rw [getStatusColor_eq_classify, classify_color_warn, classify_score_warn]
  · rw [getStatusColor_eq_classify, classify_color_normal, classify_score_normal]
  · rw [hv, classify_color_danger, classify_score_danger]
  · rw [hv, classify_color_warn, classify_score_warn]
  · rw [hv, classify_color_normal, classify_score_normal]
  · rw [riskCardClassName_eq_classify]
    exact (cardClassName_danger _).trans (classify_score_danger s)
  · rw [riskCardClassName_eq_classify]
    exact (cardClassName_warn _).trans (classify_score_warn s)
  · rw [riskCardClassName_eq_classify]
    exact (cardClassName_normal _).trans (classify_score_normal s)
  · rw [getStatusColor_eq_classify, writtenColor_eq, gaugeValue_num, gaugeColor_eq_classify]
  · rw [getStatusColor_eq_classify, classify_color_warn, classify_score_warn]; norm_num
  · rw [getStatusColor_eq_classify, classify_color_normal, classify_score_normal]

/-! ## Reconnect backoff of the `dashboard.js` stream client -/

@[simp] theorem onclose_reconnectAttempts (s : StreamClient) :
    (onclose s).reconnectAttempts = s.reconnectAttempts + 1 := rfl

@[simp] theorem onclose_scheduled (s : StreamClient) :
    (onclose s).scheduled = s.scheduled ++ [reconnectDelay s.reconnectAttempts] := rfl

@[simp] theorem onopen_reconnectAttempts (s : StreamClient) :
    (onopen s).reconnectAttempts = 0 := rfl

@[simp] theorem onopen_scheduled (s : StreamClient) : (onopen s).scheduled = s.scheduled := rfl

@[simp] theorem onmessage_reconnectAttempts (m : Option Bool) (s : StreamClient) :
    (onmessage m s).reconnectAttempts = s.reconnectAttempts := by
  rcases m with _ | b
  · rfl
  · cases b <;> rfl

@[simp] theorem onmessage_scheduled (m : Option Bool) (s : StreamClient) :
    (onmessage m s).scheduled = s.scheduled := by
  rcases m with _ | b
  · rfl
  · cases b <;> rfl

@[simp] theorem connectWebSocket_reconnectAttempts (s : StreamClient) :
    (connectWebSocket s).reconnectAttempts = s.reconnectAttempts := rfl

@[simp] theorem connectWebSocket_scheduled (s : StreamClient) :
    (connectWebSocket s).scheduled = s.scheduled := rfl

@[simp] theorem run_nil (s : StreamClient) : run s [] = s := rfl

@[simp] theorem run_cons (s : StreamClient) (e : Event) (es : List Event) :
    run s (e :: es) = run (step s e) es := rfl

theorem reconnectDelay_eq (n : Nat) : reconnectDelay n = Min.min (1000 * 2 ^ n) 5000 := rfl

theorem reconnectDelay_capped (n : Nat) (h : 3 ≤ n) : reconnectDelay n = 5000 := by
  rw [reconnectDelay_eq]
  apply min_eq_right
  have h8 : 2 ^ 3 ≤ 2 ^ n := Nat.pow_le_pow_right (by norm_num) h
  omega

/-- While no socket opens, the counter grows by the number of closes, and the closes
schedule the delays of the successive counter values, in order. -/
theorem run_without_open (es : List Event) :
    ∀ s : StreamClient, Event.open ∉ es →
      (run s es).reconnectAttempts = s.reconnectAttempts + closeCount es
      ∧ (run s es).scheduled
          = s.scheduled
            ++ (List.range (closeCount es)).map
                (fun k => reconnectDelay (s.reconnectAttempts + k)) := by
  induction es with
  | nil => intro s _; simp [closeCount]
  | cons e es ih =>
    intro s h
    have hne : Event.open ≠ e := fun h1 => h (h1 ▸ List.mem_cons_self _ _)
    have htl : Event.open ∉ es := fun h1 => h (List.mem_cons_of_mem _ h1)
    obtain ⟨ih1, ih2⟩ := ih (step s e) htl
    rw [run_cons, ih1, ih2]
    cases e with
    | «open» => exact absurd rfl hne
    | message m => simp [step, closeCount]
    | error => simp [step, closeCount, onerror]
    | close =>
      have hc : closeCount (Event.close :: es) = closeCount es + 1 := by
        simp [closeCount]
      rw [hc, List.range_succ_eq_map, List.map_cons, List.map_map]
      simp only [step, onclose_reconnectAttempts, onclose_scheduled, List.append_assoc,
        List.singleton_append, Nat.add_zero]
      refine ⟨by omega, ?_⟩
      congr 2
      apply List.map_congr_left
      intro k _
      simp only [Function.comp_apply]
      congr 1
      omega
    | timer => simp [step, closeCount]

/-- While no socket closes, a counter that is `0` stays `0` and nothing is scheduled. -/
theorem run_without_close (es : List Event) :
    ∀ s : StreamClient, Event.close ∉ es → s.reconnectAttempts = 0 →
      (run s es).reconnectAttempts = 0 ∧ (run s es).scheduled = s.scheduled := by
  induction es with
  | nil => intro s _ h0; exact ⟨h0, rfl⟩
  | cons e es ih =>
    intro s h h0
    have hne : Event.close ≠ e := fun h1 => h (h1 ▸ List.mem_cons_self _ _)
    have htl : Event.close ∉ es := fun h1 => h (List.mem_cons_of_mem _ h1)
    rw [run_cons]
    cases e with
    | «open» =>
      obtain ⟨h1, h2⟩ := ih (step s Event.open) htl rfl
      exact ⟨h1, by rw [h2]; simp [step]⟩
    | message m =>
      obtain ⟨h1, h2⟩ := ih (step s (Event.message m)) htl (by simp [step, h0])
      exact ⟨h1, by rw [h2]; simp [step]⟩
    | error =>
      obtain ⟨h1, h2⟩ := ih (step s Event.error) htl (by simp [step, onerror, h0])
      exact ⟨h1, by rw [h2]; simp [step, onerror]⟩
    | close => exact absurd rfl hne
    | timer =>
      obtain ⟨h1, h2⟩ := ih (step s Event.timer) htl (by simp [step, h0])
      exact ⟨h1, by rw [h2]; simp [step]⟩

/-- C9: starting from a counter of `0` (script load, or just after an open), after any
events without an open among which there are `n` closes, the counter is `n` and the next
close, the `n`-th consecutive one counting from `0`, schedules the reconnect after exactly
`min(1000 * 2^n, 5000)` ms and raises the counter by exactly one. The delays scheduled so
far are those of `0, 1, ..., n-1` in order; consecutive closes give
`1000, 2000, 4000, 5000, 5000`, and `5000` from the fourth close on. -/
theorem reconnect_backoff_sequence (s : StreamClient) (es : List Event) (n : Nat)
    (h0 : s.reconnectAttempts = 0) (hopen : Event.open ∉ es) (hn : closeCount es = n) :
    (run s es).reconnectAttempts = n
    ∧ (onclose (run s es)).scheduled
        = (run s es).scheduled ++ [Min.min (1000 * 2 ^ n) 5000]
    ∧ (onclose (run s es)).reconnectAttempts = (run s es).reconnectAttempts + 1
    ∧ (run s es).scheduled
        = s.scheduled ++ (List.range n).map (fun k => Min.min (1000 * 2 ^ k) 5000)
    ∧ (run s (List.replicate 5 Event.close)).scheduled
        = s.scheduled ++ [1000, 2000, 4000, 5000, 5000]
    ∧ (3 ≤ n → (onclose (run s es)).scheduled = (run s es).scheduled ++ [5000])
    ∧ (∀ t : StreamClient, (onclose t).reconnectAttempts = t.reconnectAttempts + 1) := by
  obtain ⟨h1, h2⟩ := run_without_open es s hopen
  rw [h0, hn, Nat.zero_add] at h1
  rw [h0, hn] at h2
  have h3 : (run s es).scheduled
      = s.scheduled ++ (List.range n).map (fun k => Min.min (1000 * 2 ^ k) 5000) := by
    rw [h2]
    congr 1
    apply List.map_congr_left
    intro k _
    rw [Nat.zero_add, reconnectDelay_eq]
  have h5 : (run s (List.replicate 5 Event.close)).scheduled
      = s.scheduled ++ [1000, 2000, 4000, 5000, 5000] := by
    simp [List.replicate, step, h0, reconnectDelay_eq]
  refine ⟨h1, ?_, rfl, h3, h5, ?_, fun _ => rfl⟩
  · rw [onclose_scheduled, h1, reconnectDelay_eq]
  · intro h
    rw [onclose_scheduled, h1, reconnectDelay_capped n h]

theorem reconnect_backoff_sequence_witness :
    (StreamClient.init ⟨"", "", ""⟩).reconnectAttempts = 0
    ∧ Event.open ∉ [Event.close, Event.timer, Event.error, Event.close]
    ∧ closeCount [Event.close, Event.timer, Event.error, Event.close] = 2
    ∧ (onclose (run (StreamClient.init ⟨"", "", ""⟩)
          [Event.close, Event.timer, Event.error, Event.close])).scheduled
        = (run (StreamClient.init ⟨"", "", ""⟩)
            [Event.close, Event.timer, Event.error, Event.close]).scheduled
          ++ [Min.min (1000 * 2 ^ 2) 5000]
    ∧ (run (StreamClient.init ⟨"", "", ""⟩)
          [Event.close, Event.timer, Event.error, Event.close]).scheduled
        = [1000, 2000] :=
  ⟨rfl, by decide, by decide,
    (reconnect_backoff_sequence (StreamClient.init ⟨"", "", ""⟩)
      [Event.close, Event.timer, Event.error, Event.close] 2 rfl (by decide)
      (by decide)).2.1,
    by decide⟩

/-- C10: an open resets the reconnect counter to `0` whatever its value was; after any
events without a close that follow the open, the counter is still `0`, so the first close
after the open schedules a delay of 1000 ms, whatever state preceded the open. -/
theorem open_resets_backoff (s : StreamClient) (es : List Event)
    (hclose : Event.close ∉ es) :
    (onopen s).reconnectAttempts = 0
    ∧ (run (onopen s) es).reconnectAttempts = 0
    ∧ (onclose (run (onopen s) es)).scheduled = s.scheduled ++ [1000]
    ∧ (onclose (onopen s)).scheduled = s.scheduled ++ [1000]
    ∧ (onclose (run (onopen s) es)).reconnectAttempts = 1 := by
  obtain ⟨h1, h2⟩ := run_without_close es (onopen s) hclose rfl
  refine ⟨rfl, h1, ?_, ?_, ?_⟩
  · rw [onclose_scheduled, h1, h2, onopen_scheduled]; rfl
  · rfl
  · rw [onclose_reconnectAttempts, h1]

theorem open_resets_backoff_witness :
    Event.close ∉ [Event.message (some true), Event.error, Event.message none]
    ∧ (run (StreamClient.init ⟨"", "", ""⟩)
        [Event.close, Event.timer, Event.close, Event.timer, Event.close]).reconnectAttempts
        = 3
    ∧ (onclose (run (onopen (run (StreamClient.init ⟨"", "", ""⟩)
          [Event.close, Event.timer, Event.close, Event.timer, Event.close]))
          [Event.message (some true), Event.error, Event.message none])).scheduled
        = [1000, 2000, 4000] ++ [1000] :=
  ⟨by decide, by decide,
    (open_resets_backoff (run (StreamClient.init ⟨"", "", ""⟩)
        [Event.close, Event.timer, Event.close, Event.timer, Event.close])
      [Event.message (some true), Event.error, Event.message none] (by decide)).2.2.1⟩

/-! ## The React stream client `useSensorData` -/

@[simp] theorem hookRun_nil (parse : String → Option Frame) (h : SensorHook) :
    hookRun parse h [] = h := rfl

@[simp] theorem hookRun_cons (parse : String → Option Frame) (h : SensorHook) (e : HookEvent)
    (es : List HookEvent) : hookRun parse h (e :: es) = hookRun parse (hookStep parse h e) es :=
  rfl

theorem hook_onmessage_scheduled (parse : String → Option Frame) (text : String)
    (h : SensorHook) : (useSensorData.onmessage parse text h).scheduled = h.scheduled := by
  unfold useSensorData.onmessage
  cases parse text <;> rfl

theorem hook_timerFires_scheduled (h : SensorHook) :
    (useSensorData.timerFires h).scheduled = h.scheduled := by
  unfold useSensorData.timerFires
  split_ifs <;> rfl

theorem hook_cleanup_scheduled (h : SensorHook) :
    (useSensorData.cleanup h).scheduled = h.scheduled := by
  unfold useSensorData.cleanup
  split_ifs <;> rfl

/-- Every delay the hook schedules is 3000: the log grows by one `3000` per close event. -/
theorem hookRun_scheduled (parse : String → Option Frame) (es : List HookEvent) :
    ∀ h : SensorHook,
      (hookRun parse h es).scheduled
        = h.scheduled ++ List.replicate (es.count HookEvent.close) 3000 := by
  induction es with
  | nil => intro h; simp
  | cons e es ih =>
    intro h
    rw [hookRun_cons, ih]
    cases e with
    | «open» => simp [hookStep, useSensorData.onopen]
    | message text => simp [hookStep, hook_onmessage_scheduled]
    | error => simp [hookStep, useSensorData.onerror]
    | close =>
      simp [hookStep, useSensorData.onclose, List.replicate_succ]
    | timer => simp [hookStep, hook_timerFires_scheduled]
    | dispose => simp [hookStep, hook_cleanup_scheduled]

/-- C11 (as stated, fails): the first close of the React stream client (n = 0) schedules the
reconnect after 3000 ms, not after `min(1000 * 2^0, 5000) = 1000` ms, and the third close in
a row still schedules 3000 ms, not 4000 ms. -/
theorem useSensorData_first_close_not_backoff :
    (useSensorData.onclose useSensorData.mount).scheduled = [3000]
    ∧ (useSensorData.onclose useSensorData.mount).scheduled ≠ [Min.min (1000 * 2 ^ 0) 5000]
    ∧ (hookRun (fun _ => none) useSensorData.mount
        [HookEvent.close, HookEvent.close, HookEvent.close]).scheduled = [3000, 3000, 3000]
    ∧ Min.min (1000 * 2 ^ 2) 5000 = 4000 := by
  refine ⟨rfl, by decide, rfl, by decide⟩

/-- C11 (amended): the React stream client reconnects after a fixed delay. Every close
schedules the reconnect after exactly 3000 ms, whatever preceded it, so after any events the
scheduled delays are one `3000` per close. -/
theorem useSensorData_fixed_reconnect_delay (parse : String → Option Frame) (h : SensorHook)
    (es : List HookEvent) (n : Nat) :
    (useSensorData.onclose h).scheduled = h.scheduled ++ [3000]
    ∧ (useSensorData.onclose h).pending = h.pending + 1
    ∧ (hookRun parse h es).scheduled
        = h.scheduled ++ List.replicate (es.count HookEvent.close) 3000
    ∧ (hookRun parse h (List.replicate n HookEvent.close)).scheduled
        = h.scheduled ++ List.replicate n 3000 := by
  refine ⟨rfl, rfl, hookRun_scheduled parse es h, ?_⟩
  rw [hookRun_scheduled, List.count_replicate_self]

/-- C12 (fails on the code): the cleanup of `useSensorData` only calls `ws.current.close()`.
From the connected state, dispose followed by the delivery of the close event leaves a
reconnect timer pending, and when it fires a second socket is created; a timer that was
already pending at dispose is not cancelled either. -/
theorem useSensorData_dispose_leaves_reconnect :
    (hookRun (fun _ => none) useSensorData.mount
        [HookEvent.open, HookEvent.dispose]).closeCalls = 1
    ∧ (hookRun (fun _ => none) useSensorData.mount
        [HookEvent.open, HookEvent.dispose, HookEvent.close]).pending = 1
    ∧ (hookRun (fun _ => none) useSensorData.mount
        [HookEvent.open, HookEvent.dispose, HookEvent.close]).scheduled = [3000]
    ∧ (hookRun (fun _ => none) useSensorData.mount
        [HookEvent.open, HookEvent.dispose, HookEvent.close, HookEvent.timer]).sockets = 2
    ∧ (hookRun (fun _ => none) useSensorData.mount
        [HookEvent.close, HookEvent.dispose]).pending = 1
    ∧ (∀ h : SensorHook,
        (useSensorData.onclose (useSensorData.cleanup h)).pending = h.pending + 1
        ∧ (useSensorData.timerFires (useSensorData.onclose (useSensorData.cleanup h))).sockets
            = h.sockets + 1) := by
  refine ⟨rfl, rfl, rfl, rfl, rfl, fun h => ?_⟩
  have hp : (useSensorData.cleanup h).pending = h.pending := by
    unfold useSensorData.cleanup
    split_ifs <;> rfl
  have hs : (useSensorData.cleanup h).sockets = h.sockets := by
    unfold useSensorData.cleanup
    split_ifs <;> rfl
  constructor
  · show (useSensorData.cleanup h).pending + 1 = h.pending + 1
    rw [hp]
  · unfold useSensorData.timerFires
    have hne : ¬ (useSensorData.onclose (useSensorData.cleanup h)).pending = 0 :=
      Nat.succ_ne_zero _
    rw [if_neg hne]
    show (useSensorData.cleanup h).sockets + 1 = h.sockets + 1
    rw [hs]

/-! ## Message handling -/

/-- C13: a message whose text `JSON.parse` rejects is dropped without effect. The
`ws.onmessage` handler of `dashboard.js` leaves the whole page as it was (connection
indicator, reconnect counter and schedule, gauges, alert globals), and the hook's
`onmessage` leaves the hook as it was (`isConnected`, `data`, reconnect schedule); no page is
rendered again, so the graph window, the sensor history and the alert list are unchanged. -/
theorem malformed_payload_dropped (parse : String → Option Frame) (text : String)
    (hbad : parse text = none) (p : DashboardPage) (app : ReactApp) (now : Nat)
    (label : String) :
    wsOnmessage parse text p = p
    ∧ (wsOnmessage parse text p).client.indicator = p.client.indicator
    ∧ (wsOnmessage parse text p).client.scheduled = p.client.scheduled
    ∧ (wsOnmessage parse text p).client.reconnectAttempts = p.client.reconnectAttempts
    ∧ (wsOnmessage parse text p).toasts = p.toasts
    ∧ useSensorData.onmessage parse text app.hook = app.hook
    ∧ ReactApp.onmessage parse text now label app = app
    ∧ (ReactApp.onmessage parse text now label app).hook.isConnected = app.hook.isConnected
    ∧ (ReactApp.onmessage parse text now label app).hook.data = app.hook.data
    ∧ (ReactApp.onmessage parse text now label app).hook.scheduled = app.hook.scheduled
    ∧ (ReactApp.onmessage parse text now label app).hook.pending = app.hook.pending
    ∧ (ReactApp.onmessage parse text now label app).graphs = app.graphs
    ∧ (ReactApp.onmessage parse text now label app).sensors.history = app.sensors.history
    ∧ (ReactApp.onmessage parse text now label app).alerts.alerts = app.alerts.alerts := by
  have h1 : wsOnmessage parse text p = p := by
    unfold wsOnmessage
    rw [hbad]
  have h2 : useSensorData.onmessage parse text app.hook = app.hook := by
    unfold useSensorData.onmessage
    rw [hbad]
  have h3 : ReactApp.onmessage parse text now label app = app := by
    unfold ReactApp.onmessage
    rw [hbad]
    simp only [h2]
  rw [h1, h3]
  exact ⟨rfl, rfl, rfl, rfl, rfl, h2, rfl, rfl, rfl, rfl, rfl, rfl, rfl, rfl⟩

theorem malformed_payload_dropped_witness :
    parseSample "mq2_gas: 1." = none
    ∧ DashboardPage.sample.client.indicator.text = "Connected"
    ∧ (wsOnmessage parseSample "mq2_gas: 1." DashboardPage.sample).client.indicator.text
        = "Connected"
    ∧ ReactApp.sample.hook.isConnected = true
    ∧ ReactApp.onmessage parseSample "mq2_gas: 1." 5 "12:00:05" ReactApp.sample
        = ReactApp.sample :=
  ⟨by decide, rfl,
    by
      rw [(malformed_payload_dropped parseSample "mq2_gas: 1." (by decide)
        DashboardPage.sample ReactApp.sample 5 "12:00:05").1]
      rfl,
    rfl,
    (malformed_payload_dropped parseSample "mq2_gas: 1." (by decide)
      DashboardPage.sample ReactApp.sample 5 "12:00:05").2.2.2.2.2.2.1⟩

/-- C14 (as stated, fails): the hook stores the parsed object as it is. After a message
that is the empty object (every field absent) the exposed frame has `mq2_gas`, `mq2_voltage`,
`mq135_air`, `mq135_voltage` and `risk_score` undefined, not `0`, and no `status`, not
"Safe"; and a `null` field stays `null`. -/
theorem useSensorData_exposes_absent_fields :
    (useSensorData.onmessage parseSample "frame" useSensorData.mount).data.mq2_gas
      = JSVal.undefined
    ∧ (useSensorData.onmessage parseSample "frame" useSensorData.mount).data.mq2_gas
      ≠ JSVal.num 0
    ∧ (useSensorData.onmessage parseSample "frame" useSensorData.mount).data.mq2_voltage
      ≠ JSVal.num 0
    ∧ (useSensorData.onmessage parseSample "frame" useSensorData.mount).data.mq135_air
      ≠ JSVal.num 0
    ∧ (useSensorData.onmessage parseSample "frame" useSensorData.mount).data.mq135_voltage
      ≠ JSVal.num 0
    ∧ (useSensorData.onmessage parseSample "frame" useSensorData.mount).data.risk_score
      ≠ JSVal.num 0
    ∧ (useSensorData.onmessage parseSample "frame" useSensorData.mount).data.status
      ≠ some "Safe"
    ∧ (useSensorData.onmessage
        (fun _ => some { Frame.empty with risk_score := JSVal.null }) "frame"
        useSensorData.mount).data.risk_score = JSVal.null := by
  have h : useSensorData.onmessage parseSample "frame" useSensorData.mount
      = { useSensorData.mount with data := Frame.empty } := by
    unfold useSensorData.onmessage
    have hp : parseSample "frame" = some Frame.empty := by
      unfold parseSample
      rw [if_pos rfl]
    rw [hp]
  rw [h]
  refine ⟨rfl, ?_, ?_, ?_, ?_, ?_, ?_, rfl⟩ <;> simp [Frame.empty]

/-- C14 (amended): the hook applies no normalisation. For every received JSON object the
frame exposed to consumers is that object unchanged, so a field that is absent, `null` or
`NaN` in the message is so in the exposed frame; the values `0` and "Safe" are those of the
initial frame, exposed until the first message is received. -/
theorem useSensorData_exposes_parsed_frame (parse : String → Option Frame) (text : String)
    (parsed : Frame) (h : SensorHook) (hok : parse text = some parsed) :
    (useSensorData.onmessage parse text h).data = parsed
    ∧ useSensorData.mount.data.mq2_gas = JSVal.num 0
    ∧ useSensorData.mount.data.mq2_voltage = JSVal.num 0
    ∧ useSensorData.mount.data.mq135_air = JSVal.num 0
    ∧ useSensorData.mount.data.mq135_voltage = JSVal.num 0
    ∧ useSensorData.mount.data.risk_score = JSVal.num 0
    ∧ useSensorData.mount.data.status = some "Safe" := by
  refine ⟨?_, rfl, rfl, rfl, rfl, rfl, rfl⟩
  unfold useSensorData.onmessage
  rw [hok]

theorem useSensorData_exposes_parsed_frame_witness :
    parseSample "frame" = some Frame.empty
    ∧ (useSensorData.onmessage parseSample "frame" useSensorData.mount).data = Frame.empty :=
  ⟨by decide,
    (useSensorData_exposes_parsed_frame parseSample "frame" Frame.empty useSensorData.mount
      (by decide)).1⟩

/-! ## Exceptions while processing a frame -/

/-- The Danger branch of `updateDashboard` throws as soon as it is entered with a
`risk_score` that is `undefined` or `null`, before any alert is recorded. -/
theorem updateDashboard_throws_of_danger (data : Frame) (p : DashboardPage)
    (hs : data.status = some "Danger") (hl : p.lastAlertStatus ≠ "Danger")
    (hc : p.alertCooldown = false)
    (hr : data.risk_score = JSVal.undefined ∨ data.risk_score = JSVal.null) :
    (updateDashboard data p).thrown ≠ none
    ∧ (updateDashboard data p).page.toasts = p.toasts
    ∧ (updateDashboard data p).page.lastAlertStatus = p.lastAlertStatus
    ∧ (updateDashboard data p).page.alertCooldown = p.alertCooldown
    ∧ (updateDashboard data p).page.client = p.client := by
  unfold updateDashboard
  simp only [hs, hl, hc, ne_eq, not_false_eq_true, and_self, if_true]
  rcases hr with h | h <;> rw [h] <;> simp [JSVal.toFixed]

/-- C15 (fails on the code): processing a frame can throw. In `dashboard.js`, a frame with
status "Danger" and no `risk_score`, received while no alert is recorded and no cooldown is
active, makes `updateDashboard` throw a `TypeError` at `data.risk_score.toFixed(0)`: no
toast is shown and `lastAlertStatus` stays "Safe". In `Dashboard.jsx`, a frame without
`mq2_voltage` makes the gauge expression `Number(data.mq2_voltage.toFixed(2))` throw, while
the guarded card expression for the same field does not. -/
theorem frame_processing_throws :
    (updateDashboard Frame.dangerNoScore DashboardPage.sample).thrown
      = some (JSError.typeError "cannot read properties of undefined (reading toFixed)")
    ∧ (updateDashboard Frame.dangerNoScore DashboardPage.sample).page.toasts = []
    ∧ (updateDashboard Frame.dangerNoScore DashboardPage.sample).page.lastAlertStatus = "Safe"
    ∧ (updateDashboard
        { Frame.dangerNoScore with risk_score := JSVal.null } DashboardPage.sample).thrown
      = some (JSError.typeError "cannot read properties of null (reading toFixed)")
    ∧ dashboardGaugeValues Frame.scoreOnly
      = Except.error (JSError.typeError "cannot read properties of undefined (reading toFixed)")
    ∧ dashboardGaugeValues { Frame.scoreOnly with mq2_voltage := JSVal.null }
      = Except.error (JSError.typeError "cannot read properties of null (reading toFixed)")
    ∧ dashboardVoltageCard Frame.scoreOnly.mq2_voltage = Except.ok none := by
  refine ⟨?_, ?_, ?_, ?_, rfl, rfl, rfl⟩
  · simp [updateDashboard, Frame.dangerNoScore, Frame.empty, DashboardPage.sample,
      DashboardPage.init, JSVal.toFixed]
  · simp [updateDashboard, Frame.dangerNoScore, Frame.empty, DashboardPage.sample,
      DashboardPage.init, JSVal.toFixed]
  · simp [updateDashboard, Frame.dangerNoScore, Frame.empty, DashboardPage.sample,
      DashboardPage.init, JSVal.toFixed]
  · simp [updateDashboard, Frame.dangerNoScore, Frame.empty, DashboardPage.sample,
      DashboardPage.init, JSVal.toFixed]

/-! ## Rolling windows -/

theorem sliceLast_length (n : Nat) (xs : List α) :
    (sliceLast n xs).length = Min.min xs.length n := by
  unfold sliceLast
  rw [List.length_drop]
  omega

/-- Pushing onto a window already cut to its last `n` elements gives the same window as
pushing onto the whole sequence. -/
theorem sliceLast_push (n : Nat) (hn : 0 < n) (xs : List α) (a : α) :
    sliceLast n (sliceLast n xs ++ [a]) = sliceLast n (xs ++ [a]) := by
  unfold sliceLast
  simp only [List.length_append, List.length_drop, List.length_singleton]
  rcases Nat.lt_or_ge n xs.length with h | h
  · have e1 : xs.length - (xs.length - n) + 1 - n = 1 := by omega
    have e2 : xs.length + 1 - n = (xs.length - n) + 1 := by omega
    rw [e1, e2]
    rw [List.drop_append_of_le_length (by rw [List.length_drop]; omega),
      List.drop_append_of_le_length (by omega), List.drop_drop]
  · have e0 : xs.length - n = 0 := by omega
    rw [e0]
    simp

theorem LiveGraphs.pushAll_append (prev : GraphHistory) (samples : List (String × Frame))
    (x : String × Frame) :
    LiveGraphs.pushAll prev (samples ++ [x])
      = LiveGraphs.push (LiveGraphs.pushAll prev samples) x.1 x.2 := by
  unfold LiveGraphs.pushAll
  rw [List.foldl_append]
  rfl

/-- After any pushes from the empty window, each series is the last 20 of what was pushed. -/
theorem LiveGraphs.pushAll_initial (samples : List (String × Frame)) :
    LiveGraphs.pushAll LiveGraphs.initial samples
      = { labels := sliceLast 20 (samples.map (fun x => x.1))
          temp := sliceLast 20 (samples.map (fun x => x.2.temperature))
          mq2 := sliceLast 20 (samples.map (fun x => x.2.mq2_gas)) } := by
  induction samples using List.reverseRecOn with
  | nil => rfl
  | append_singleton samples x ih =>
    rw [LiveGraphs.pushAll_append, ih]
    simp only [LiveGraphs.push, List.map_append, List.map_cons, List.map_nil]
    rw [sliceLast_push 20 (by norm_num), sliceLast_push 20 (by norm_num),
      sliceLast_push 20 (by norm_num)]

/-- C16: the graph rolling window of `LiveGraphs` has capacity 20. After any sequence of `N`
pushes starting from the empty window, each of the series `labels`, `temp` and `mq2` has
length `min(N, 20)` and consists of exactly the last `min(N, 20)` pushed samples in arrival
order (oldest first, newest last). -/
theorem graph_window_last_twenty (samples : List (String × Frame)) :
    (LiveGraphs.pushAll LiveGraphs.initial samples).labels.length = Min.min samples.length 20
    ∧ (LiveGraphs.pushAll LiveGraphs.initial samples).temp.length = Min.min samples.length 20
    ∧ (LiveGraphs.pushAll LiveGraphs.initial samples).mq2.length = Min.min samples.length 20
    ∧ (LiveGraphs.pushAll LiveGraphs.initial samples).labels
        = (samples.drop (samples.length - Min.min samples.length 20)).map (fun x => x.1)
    ∧ (LiveGraphs.pushAll LiveGraphs.initial samples).temp
        = (samples.drop (samples.length - Min.min samples.length 20)).map
            (fun x => x.2.temperature)
    ∧ (LiveGraphs.pushAll LiveGraphs.initial samples).mq2
        = (samples.drop (samples.length - Min.min samples.length 20)).map
            (fun x => x.2.mq2_gas) := by
  have hd : samples.length - Min.min samples.length 20 = samples.length - 20 := by omega
  rw [LiveGraphs.pushAll_initial, hd]
  refine ⟨?_, ?_, ?_, ?_, ?_, ?_⟩
  · rw [sliceLast_length, List.length_map]
  · rw [sliceLast_length, List.length_map]
  · rw [sliceLast_length, List.length_map]
  · simp only [sliceLast, List.length_map, List.map_drop]
  · simp only [sliceLast, List.length_map, List.map_drop]
  · simp only [sliceLast, List.length_map, List.map_drop]

/-! ### The sensor history -/

/-- C17 (as stated, fails): the history effect of the Sensors page runs only when a voltage
changes. Two received frames with the same voltages perform one push, not two: after the
mount and the two frames the history holds 2 entries, not 3; and a first frame whose
voltages equal the initial ones performs no push at all. -/
theorem sensors_history_skips_equal_voltages :
    (Sensors.mount 0).history.length = 1
    ∧ (Sensors.renderAll (Sensors.mount 0) [(1, Frame.oneVolt)]).history.length = 2
    ∧ (Sensors.renderAll (Sensors.mount 0)
        [(1, Frame.oneVolt), (2, Frame.oneVolt)]).history.length = 2
    ∧ (Sensors.renderAll (Sensors.mount 0)
        [(1, Frame.oneVolt), (2, Frame.oneVolt)]).history.length ≠ Min.min 2 100 + 1
    ∧ (Sensors.renderAll (Sensors.mount 0)
        [(1, { useSensorData.initialData with risk_score := JSVal.num 80 })]).history.length
        = 1 := by
  refine ⟨by decide, by decide, by decide, by decide, by decide⟩

/-- C17 (amended): the history effect is gated by its dependencies. A received frame
performs one push, keeping the newest 100 entries, exactly when its `mq2_voltage` or
`mq135_voltage` differs from the value at the previous render; a frame whose two voltages
both equal the previous ones performs no push and leaves the history unchanged. -/
theorem sensors_history_push_on_change (now : Nat) (data : Frame) (p : SensorsPage) :
    (p.deps = some (data.mq2_voltage, data.mq135_voltage) → Sensors.render now data p = p)
    ∧ (p.deps ≠ some (data.mq2_voltage, data.mq135_voltage) →
        (Sensors.render now data p).history
          = ({ timestamp := now, mq2 := data.mq2_voltage, mq135 := data.mq135_voltage }
              :: p.history).take 100
        ∧ (Sensors.render now data p).history.length = Min.min (p.history.length + 1) 100)
    ∧ (Sensors.render now data p).deps = some (data.mq2_voltage, data.mq135_voltage) := by
  refine ⟨?_, ?_, ?_⟩
  · intro h
    unfold Sensors.render
    rw [if_pos h]
  · intro h
    unfold Sensors.render
    rw [if_neg h]
    refine ⟨rfl, ?_⟩
    simp only [Sensors.track, List.length_take, List.length_cons]
    omega
  · unfold Sensors.render
    split_ifs with h
    · exact h
    · rfl

theorem sensors_history_push_on_change_witness :
    (Sensors.mount 0).deps ≠ some (Frame.oneVolt.mq2_voltage, Frame.oneVolt.mq135_voltage)
    ∧ (Sensors.render 1 Frame.oneVolt (Sensors.mount 0)).history.length
        = Min.min ((Sensors.mount 0).history.length + 1) 100
    ∧ (Sensors.render 1 Frame.oneVolt (Sensors.mount 0)).deps
        = some (Frame.oneVolt.mq2_voltage, Frame.oneVolt.mq135_voltage)
    ∧ Sensors.render 2 Frame.oneVolt (Sensors.render 1 Frame.oneVolt (Sensors.mount 0))
        = Sensors.render 1 Frame.oneVolt (Sensors.mount 0) :=
  ⟨by decide,
    ((sensors_history_push_on_change 1 Frame.oneVolt (Sensors.mount 0)).2.1 (by decide)).2,
    (sensors_history_push_on_change 1 Frame.oneVolt (Sensors.mount 0)).2.2,
    (sensors_history_push_on_change 2 Frame.oneVolt
      (Sensors.render 1 Frame.oneVolt (Sensors.mount 0))).1
      (sensors_history_push_on_change 1 Frame.oneVolt (Sensors.mount 0)).2.2⟩

/-! ### The alert list -/

theorem Alerts.pushAlert_eq (a : Alert) (prev : List Alert) :
    Alerts.pushAlert a prev = a :: prev.take 99 := rfl

theorem Alerts.foldl_pushAlert_append (l : List Alert) (emitted : List Alert) (a : Alert) :
    (emitted ++ [a]).foldl (fun l x => Alerts.pushAlert x l) l
      = Alerts.pushAlert a (emitted.foldl (fun l x => Alerts.pushAlert x l) l) := by
  rw [List.foldl_append]
  rfl

/-- After any emitted alerts from the empty list, the list is the newest 100, newest first. -/
theorem Alerts.foldl_pushAlert (emitted : List Alert) :
    emitted.foldl (fun l x => Alerts.pushAlert x l) [] = emitted.reverse.take 100 := by
  induction emitted using List.reverseRecOn with
  | nil => rfl
  | append_singleton emitted a ih =>
    rw [Alerts.foldl_pushAlert_append, ih, Alerts.pushAlert_eq, List.take_take,
      List.reverse_append, List.reverse_singleton, List.singleton_append, List.take_succ_cons]
    rfl

/-- C18: the alert list is a bounded newest-first window of capacity 100. For every list
`prev` and new alert `a`, the updated list is `a` followed by the first 99 entries of `prev`
(all of them when there are fewer) in their order; after any sequence of `N` emitted alerts
from the empty list, the list is the most recent `min(N, 100)` alerts, newest first, has
length `min(N, 100)` and never more than 100 entries. -/
theorem alert_list_bounded_newest_first (a : Alert) (prev : List Alert)
    (emitted : List Alert) :
    Alerts.pushAlert a prev = a :: prev.take 99
    ∧ (Alerts.pushAlert a prev).length = Min.min (prev.length + 1) 100
    ∧ emitted.foldl (fun l x => Alerts.pushAlert x l) [] = emitted.reverse.take 100
    ∧ (emitted.foldl (fun l x => Alerts.pushAlert x l) []).length = Min.min emitted.length 100
    ∧ (emitted.foldl (fun l x => Alerts.pushAlert x l) []).length ≤ 100
    ∧ (Alerts.pushAlert a prev).length ≤ 100 := by
  have h1 : (Alerts.pushAlert a prev).length = Min.min (prev.length + 1) 100 := by
    simp only [Alerts.pushAlert, List.length_take, List.length_cons]
    omega
  have h2 : (emitted.foldl (fun l x => Alerts.pushAlert x l) []).length
      = Min.min emitted.length 100 := by
    rw [Alerts.foldl_pushAlert, List.length_take, List.length_reverse]
    omega
  refine ⟨rfl, h1, Alerts.foldl_pushAlert emitted, h2, ?_, ?_⟩
  · rw [h2]; omega
  · rw [h1]; omega

/-! ## Alert detection on the Alerts page -/

theorem Alerts.newAlert_of_ge (now : Nat) (data : Frame) (alerts : List Alert)
    (h : jsGe data.risk_score 100 = true) :
    Alerts.newAlert now data alerts = some (Alerts.highAlert now data) := by
  unfold Alerts.newAlert
  rw [if_pos h]
  rfl

theorem Alerts.newAlert_not_high (now : Nat) (data : Frame) (alerts : List Alert)
    (h : ¬ jsGe data.risk_score 100 = true) (a : Alert)
    (ha : Alerts.newAlert now data alerts = some a) : a.severity = "MEDIUM" := by
  unfold Alerts.newAlert at ha
  rw [if_neg h] at ha
  split at ha
  · dsimp only at ha
    split at ha
    · cases ha
      rfl
    · cases ha
  · cases ha

theorem Alerts.high_iff (now : Nat) (data : Frame) (alerts : List Alert) :
    (∃ a, Alerts.newAlert now data alerts = some a ∧ a.severity = "HIGH")
      ↔ jsGe data.risk_score 100 = true := by
  constructor
  · rintro ⟨a, ha, hs⟩
    by_contra h
    have hm := Alerts.newAlert_not_high now data alerts h a ha
    rw [hm] at hs
    exact absurd hs (by decide)
  · intro h
    exact ⟨Alerts.highAlert now data, Alerts.newAlert_of_ge now data alerts h, rfl⟩

theorem Alerts.render_of_ne (now : Nat) (data : Frame) (p : AlertsPage)
    (h : p.deps ≠ some (data.risk_score, data.ml_prediction)) :
    (Alerts.render now data p).alerts = Alerts.effect now data p.alerts := by
  unfold Alerts.render
  rw [if_neg h]

theorem Alerts.render_of_eq (now : Nat) (data : Frame) (p : AlertsPage)
    (h : p.deps = some (data.risk_score, data.ml_prediction)) :
    Alerts.render now data p = p := by
  unfold Alerts.render
  rw [if_pos h]

theorem Alerts.mount_eq (now : Nat) :
    Alerts.mount now = { alerts := [], deps := some (JSVal.num 0, none) } := by
  unfold Alerts.mount Alerts.render
  rw [if_neg (by simp)]
  have h : Alerts.effect now useSensorData.initialData [] = [] := by
    unfold Alerts.effect Alerts.newAlert
    simp [useSensorData.initialData, Frame.empty, jsGe_num]
    norm_num
  rw [h]
  rfl

theorem jsGe_withRisk (score : ℚ) (prediction : String) (h : 100 ≤ score) :
    jsGe (Frame.withRisk score prediction).risk_score 100 = true := by
  show jsGe (JSVal.num score) 100 = true
  rw [jsGe_num, decide_eq_true_eq]
  exact h

theorem Alerts.render_withRisk (now : Nat) (score : ℚ) (prediction : String)
    (p : AlertsPage) (hscore : 100 ≤ score)
    (hdeps : p.deps ≠ some (JSVal.num score, some prediction)) :
    Alerts.render now (Frame.withRisk score prediction) p
      = { alerts := Alerts.highAlert now (Frame.withRisk score prediction) :: p.alerts.take 99
          deps := some (JSVal.num score, some prediction) } := by
  have hd : p.deps ≠ some ((Frame.withRisk score prediction).risk_score,
      (Frame.withRisk score prediction).ml_prediction) := hdeps
  unfold Alerts.render
  rw [if_neg hd]
  unfold Alerts.effect
  rw [Alerts.newAlert_of_ge now _ _ (jsGe_withRisk score prediction hscore)]
  rfl

/-- C19 (as stated, fails): the Alerts page keeps no recorded status and no cooldown. A
frame with `risk_score = 100` and prediction "WARN" at instant 1000 emits a HIGH alert; by
the specification the recorded status is then "Danger" and a cooldown is active at instant
1001, yet the frame with `risk_score = 100` and prediction "CRITICAL" processed at 1001
emits a second HIGH alert. -/
theorem alerts_high_emitted_during_cooldown :
    (Alerts.render 1000 (Frame.withRisk 100 "WARN") (Alerts.mount 0)).alerts.map
        (fun a => a.severity) = ["HIGH"]
    ∧ (SpecDedup.afterHigh 1000).recordedStatus = "Danger"
    ∧ (SpecDedup.afterHigh 1000).cooldownActive 1001 = true
    ∧ (Alerts.newAlert 1001 (Frame.withRisk 100 "CRITICAL")
        (Alerts.render 1000 (Frame.withRisk 100 "WARN") (Alerts.mount 0)).alerts).map
        (fun a => a.severity) = some "HIGH"
    ∧ (Alerts.render 1001 (Frame.withRisk 100 "CRITICAL")
        (Alerts.render 1000 (Frame.withRisk 100 "WARN") (Alerts.mount 0))).alerts.map
        (fun a => a.severity) = ["HIGH", "HIGH"] := by
  have h1 : Alerts.render 1000 (Frame.withRisk 100 "WARN") (Alerts.mount 0)
      = { alerts := [Alerts.highAlert 1000 (Frame.withRisk 100 "WARN")]
          deps := some (JSVal.num 100, some "WARN") } := by
    rw [Alerts.render_withRisk 1000 100 "WARN" _ (le_refl _)
      (by rw [Alerts.mount_eq]; simp), Alerts.mount_eq]
    rfl
  have h2 : Alerts.render 1001 (Frame.withRisk 100 "CRITICAL")
      { alerts := [Alerts.highAlert 1000 (Frame.withRisk 100 "WARN")]
        deps := some (JSVal.num 100, some "WARN") }
      = { alerts := [Alerts.highAlert 1001 (Frame.withRisk 100 "CRITICAL"),
                     Alerts.highAlert 1000 (Frame.withRisk 100 "WARN")]
          deps := some (JSVal.num 100, some "CRITICAL") } := by
    rw [Alerts.render_withRisk 1001 100 "CRITICAL" _ (le_refl _) (by simp)]
    rfl
  rw [h1, h2, Alerts.newAlert_of_ge _ _ _ (jsGe_withRisk 100 "CRITICAL" (le_refl _))]
  exact ⟨rfl, rfl, by decide, rfl, rfl⟩

/-- C19 (amended): on the Alerts page a processed frame (one for which the detection effect
runs, that is whose `risk_score` or `ml_prediction` differs from the previous render) emits
a HIGH alert if and only if `risk_score >= 100`, whatever was emitted before and however
recently; in that case exactly one alert of severity HIGH is added at the head of the list
(a frame with `risk_score = 100` after mount yields exactly one HIGH alert). -/
theorem alerts_high_iff_score (now : Nat) (data : Frame) (p : AlertsPage) :
    ((∃ a, Alerts.newAlert now data p.alerts = some a ∧ a.severity = "HIGH")
        ↔ jsGe data.risk_score 100 = true)
    ∧ (∀ s : ℚ, data.risk_score = JSVal.num s →
        ((∃ a, Alerts.newAlert now data p.alerts = some a ∧ a.severity = "HIGH") ↔ 100 ≤ s))
    ∧ (jsGe data.risk_score 100 = true →
        Alerts.effect now data p.alerts = Alerts.highAlert now data :: p.alerts.take 99
        ∧ (Alerts.highAlert now data).severity = "HIGH")
    ∧ (p.deps ≠ some (data.risk_score, data.ml_prediction) →
        (Alerts.render now data p).alerts = Alerts.effect now data p.alerts) := by
  refine ⟨Alerts.high_iff now data p.alerts, ?_, ?_, Alerts.render_of_ne now data p⟩
  · intro s hs
    rw [Alerts.high_iff, hs, jsGe_num, decide_eq_true_eq]
  · intro h
    unfold Alerts.effect
    rw [Alerts.newAlert_of_ge now data p.alerts h]
    exact ⟨rfl, rfl⟩

theorem alerts_high_iff_score_witness :
    jsGe (Frame.withRisk 100 "WARN").risk_score 100 = true
    ∧ (Alerts.mount 0).deps
        ≠ some ((Frame.withRisk 100 "WARN").risk_score, (Frame.withRisk 100 "WARN").ml_prediction)
    ∧ Alerts.effect 1000 (Frame.withRisk 100 "WARN") (Alerts.mount 0).alerts
        = Alerts.highAlert 1000 (Frame.withRisk 100 "WARN") :: (Alerts.mount 0).alerts.take 99
    ∧ (Alerts.render 1000 (Frame.withRisk 100 "WARN") (Alerts.mount 0)).alerts
        = Alerts.effect 1000 (Frame.withRisk 100 "WARN") (Alerts.mount 0).alerts :=
  ⟨jsGe_withRisk 100 "WARN" (le_refl _),
    by rw [Alerts.mount_eq]; simp [Frame.withRisk],
    ((alerts_high_iff_score 1000 (Frame.withRisk 100 "WARN") (Alerts.mount 0)).2.2.1
      (jsGe_withRisk 100 "WARN" (le_refl _))).1,
    (alerts_high_iff_score 1000 (Frame.withRisk 100 "WARN") (Alerts.mount 0)).2.2.2
      (by rw [Alerts.mount_eq]; simp [Frame.withRisk])⟩

/-- C20 (as stated, fails): after a HIGH alert at instant 1000 for `risk_score = 100`, the
frame with `risk_score = 101` processed 1 ms later emits a second HIGH alert, well inside
the 30 seconds. -/
theorem alerts_second_high_within_cooldown :
    (Alerts.render 1000 (Frame.withRisk 100 "CRITICAL") (Alerts.mount 0)).alerts.length = 1
    ∧ (Alerts.render 1001 (Frame.withRisk 101 "CRITICAL")
        (Alerts.render 1000 (Frame.withRisk 100 "CRITICAL") (Alerts.mount 0))).alerts.length
        = 2
    ∧ (Alerts.render 1001 (Frame.withRisk 101 "CRITICAL")
        (Alerts.render 1000 (Frame.withRisk 100 "CRITICAL") (Alerts.mount 0))).alerts.map
        (fun a => (a.severity, a.timestamp)) = [("HIGH", 1001), ("HIGH", 1000)]
    ∧ 1001 - 1000 < 30000 := by
  have h1 : Alerts.render 1000 (Frame.withRisk 100 "CRITICAL") (Alerts.mount 0)
      = { alerts := [Alerts.highAlert 1000 (Frame.withRisk 100 "CRITICAL")]
          deps := some (JSVal.num 100, some "CRITICAL") } := by
    rw [Alerts.render_withRisk 1000 100 "CRITICAL" _ (le_refl _)
      (by rw [Alerts.mount_eq]; simp), Alerts.mount_eq]
    rfl
  have h2 : Alerts.render 1001 (Frame.withRisk 101 "CRITICAL")
      { alerts := [Alerts.highAlert 1000 (Frame.withRisk 100 "CRITICAL")]
        deps := some (JSVal.num 100, some "CRITICAL") }
      = { alerts := [Alerts.highAlert 1001 (Frame.withRisk 101 "CRITICAL"),
                     Alerts.highAlert 1000 (Frame.withRisk 100 "CRITICAL")]
          deps := some (JSVal.num 101, some "CRITICAL") } := by
    rw [Alerts.render_withRisk 1001 101 "CRITICAL" _ (by norm_num) (by simp)]
    rfl
  rw [h1, h2]
  exact ⟨rfl, rfl, rfl, by decide⟩

/-- C20 (amended): on the Alerts page, once a HIGH alert has been emitted, a further frame
emits no further alert when its `risk_score` and `ml_prediction` both equal those of the
previous render, at whatever time it arrives; a further frame with `risk_score >= 100`
whose `risk_score` or `ml_prediction` differs from the previous render emits another HIGH
alert, also within 30 seconds. -/
theorem alerts_repeat_gated_by_change (now : Nat) (data : Frame) (p : AlertsPage) :
    (p.deps = some (data.risk_score, data.ml_prediction) →
        (Alerts.render now data p).alerts = p.alerts)
    ∧ (p.deps ≠ some (data.risk_score, data.ml_prediction) →
        jsGe data.risk_score 100 = true →
        (Alerts.render now data p).alerts = Alerts.highAlert now data :: p.alerts.take 99)
    ∧ (Alerts.render now data p).deps = some (data.risk_score, data.ml_prediction) := by
  refine ⟨fun h => ?_, fun h hge => ?_, ?_⟩
  · rw [Alerts.render_of_eq now data p h]
  · rw [Alerts.render_of_ne now data p h]
    unfold Alerts.effect
    rw [Alerts.newAlert_of_ge now data p.alerts hge]
    rfl
  · unfold Alerts.render
    split_ifs with h
    · exact h
    · rfl

theorem alerts_repeat_gated_by_change_witness :
    (Alerts.render 1000 (Frame.withRisk 100 "CRITICAL") (Alerts.mount 0)).deps
      = some ((Frame.withRisk 100 "CRITICAL").risk_score,
              (Frame.withRisk 100 "CRITICAL").ml_prediction)
    ∧ (Alerts.render 1001 (Frame.withRisk 100 "CRITICAL")
        (Alerts.render 1000 (Frame.withRisk 100 "CRITICAL") (Alerts.mount 0))).alerts
      = (Alerts.render 1000 (Frame.withRisk 100 "CRITICAL") (Alerts.mount 0)).alerts
    ∧ (Alerts.mount 0).deps
      ≠ some ((Frame.withRisk 100 "CRITICAL").risk_score,
              (Frame.withRisk 100 "CRITICAL").ml_prediction)
    ∧ jsGe (Frame.withRisk 100 "CRITICAL").risk_score 100 = true
    ∧ (Alerts.render 1000 (Frame.withRisk 100 "CRITICAL") (Alerts.mount 0)).alerts
      = Alerts.highAlert 1000 (Frame.withRisk 100 "CRITICAL")
          :: (Alerts.mount 0).alerts.take 99 :=
  ⟨(alerts_repeat_gated_by_change 1000 (Frame.withRisk 100 "CRITICAL") (Alerts.mount 0)).2.2,
    (alerts_repeat_gated_by_change 1001 (Frame.withRisk 100 "CRITICAL")
      (Alerts.render 1000 (Frame.withRisk 100 "CRITICAL") (Alerts.mount 0))).1
      (alerts_repeat_gated_by_change 1000 (Frame.withRisk 100 "CRITICAL")
        (Alerts.mount 0)).2.2,
    by rw [Alerts.mount_eq]; simp [Frame.withRisk],
    jsGe_withRisk 100 "CRITICAL" (le_refl _),
    (alerts_repeat_gated_by_change 1000 (Frame.withRisk 100 "CRITICAL") (Alerts.mount 0)).2.1
      (by rw [Alerts.mount_eq]; simp [Frame.withRisk])
      (jsGe_withRisk 100 "CRITICAL" (le_refl _))⟩

/-! ## The `dashboard.js` alert deduplicator -/

/-- What processing one frame does to the alert globals: either no toast is shown, the
cooldown flag and its timers are untouched and the marker is unchanged or set to "Safe" by a
Safe frame; or the Danger branch completes: one toast, marker "Danger", cooldown on, one
more timer. -/
theorem updateDashboard_dedup (data : Frame) (p : DashboardPage) :
    ((updateDashboard data p).page.toasts = p.toasts
      ∧ (updateDashboard data p).page.alertCooldown = p.alertCooldown
      ∧ (updateDashboard data p).page.cooldownTimers = p.cooldownTimers
      ∧ ((updateDashboard data p).page.lastAlertStatus = p.lastAlertStatus
        ∨ (data.status = some "Safe"
          ∧ (updateDashboard data p).page.lastAlertStatus = "Safe")))
    ∨ (data.status = some "Danger" ∧ p.lastAlertStatus ≠ "Danger" ∧ p.alertCooldown = false
      ∧ ∃ t, data.risk_score.toFixed 0 = Except.ok t
        ∧ (updateDashboard data p).page.toasts
            = p.toasts ++ [{ riskScoreText := t, kind := "danger" }]
        ∧ (updateDashboard data p).page.lastAlertStatus = "Danger"
        ∧ (updateDashboard data p).page.alertCooldown = true
        ∧ (updateDashboard data p).page.cooldownTimers = p.cooldownTimers + 1
        ∧ (updateDashboard data p).thrown = none) := by
  by_cases hc : data.status = some "Danger" ∧ p.lastAlertStatus ≠ "Danger"
      ∧ p.alertCooldown = false
  · cases ht : data.risk_score.toFixed 0 with
    | error e =>
      left
      unfold updateDashboard
      simp [hc, ht]
    | ok t =>
      right
      refine ⟨hc.1, hc.2.1, hc.2.2, t, rfl, ?_⟩
      unfold updateDashboard
      simp [hc, ht, updateConnectionStatus]
  · left
    unfold updateDashboard
    simp only [ne_eq] at hc
    simp only [ne_eq, hc, if_false]
    split_ifs with hs
    · simp [updateConnectionStatus, hs]
    · simp [updateConnectionStatus]

/-- The Danger branch on a frame whose `risk_score` is a number. -/
theorem updateDashboard_danger (data : Frame) (p : DashboardPage) (r : ℚ)
    (hs : data.status = some "Danger") (hl : p.lastAlertStatus ≠ "Danger")
    (hc : p.alertCooldown = false) (hr : data.risk_score = JSVal.num r) :
    (updateDashboard data p).page.toasts
      = p.toasts ++ [{ riskScoreText := NumText.fixed r 0, kind := "danger" }]
    ∧ (updateDashboard data p).page.lastAlertStatus = "Danger"
    ∧ (updateDashboard data p).page.alertCooldown = true
    ∧ (updateDashboard data p).page.cooldownTimers = p.cooldownTimers + 1
    ∧ (updateDashboard data p).thrown = none := by
  unfold updateDashboard
  simp only [hs, hl, hc, ne_eq, not_false_eq_true, and_self, if_true, hr, JSVal.toFixed]
  simp [updateConnectionStatus]

/-- A frame with status "Safe": marker "Safe", nothing else of the deduplicator changes. -/
theorem updateDashboard_safe (data : Frame) (p : DashboardPage)
    (hs : data.status = some "Safe") :
    (updateDashboard data p).page.lastAlertStatus = "Safe"
    ∧ (updateDashboard data p).page.toasts = p.toasts
    ∧ (updateDashboard data p).page.alertCooldown = p.alertCooldown
    ∧ (updateDashboard data p).page.cooldownTimers = p.cooldownTimers
    ∧ (updateDashboard data p).thrown = none := by
  unfold updateDashboard
  simp [hs, updateConnectionStatus]

theorem pageRun_nil (p : DashboardPage) : pageRun p [] = p := rfl

theorem pageRun_cons (p : DashboardPage) (e : PageEvent) (es : List PageEvent) :
    pageRun p (e :: es) = pageRun (pageStep p e) es := rfl

theorem cooldownTimerFires_dedup (p : DashboardPage) :
    (cooldownTimerFires p).toasts = p.toasts
    ∧ (cooldownTimerFires p).lastAlertStatus = p.lastAlertStatus := by
  unfold cooldownTimerFires
  split_ifs <;> exact ⟨rfl, rfl⟩

theorem pageStep_cooldown_of_ne_timer (p : DashboardPage) (e : PageEvent)
    (he : e ≠ PageEvent.cooldownTimer) (hc : p.alertCooldown = true) :
    (pageStep p e).alertCooldown = true := by
  cases e with
  | frame data =>
    show (updateDashboard data p).page.alertCooldown = true
    rcases updateDashboard_dedup data p with h | h
    · rw [h.2.1, hc]
    · exact h.2.2.2.choose_spec.2.2.2.1
  | cooldownTimer => exact absurd rfl he
  | socketOpen => exact hc
  | socketError => exact hc
  | socketClose => exact hc
  | reconnectTimer => exact hc

/-- C21: in the `dashboard.js` deduplicator, while `alertCooldown` is true, processing any
frame shows no toast and leaves `alertCooldown` true. If processing a frame turns the flag
from false to true, then exactly one toast was shown (and one 30 000 ms timer set). No event
other than the firing of that timer turns a true flag to false, and the timer does. -/
theorem cooldown_blocks_and_only_timer_clears (data : Frame) (p : DashboardPage)
    (e : PageEvent) :
    (p.alertCooldown = true →
        (updateDashboard data p).page.toasts = p.toasts
        ∧ (updateDashboard data p).page.alertCooldown = true)
    ∧ (p.alertCooldown = false → (updateDashboard data p).page.alertCooldown = true →
        (∃ t, (updateDashboard data p).page.toasts = p.toasts ++ [t])
        ∧ (updateDashboard data p).page.cooldownTimers = p.cooldownTimers + 1)
    ∧ ((updateDashboard data p).page.toasts = p.toasts →
        (updateDashboard data p).page.alertCooldown = p.alertCooldown)
    ∧ (e ≠ PageEvent.cooldownTimer → p.alertCooldown = true →
        (pageStep p e).alertCooldown = true)
    ∧ (0 < p.cooldownTimers → (pageStep p PageEvent.cooldownTimer).alertCooldown = false) := by
  refine ⟨fun hc => ?_, fun hc ht => ?_, fun ht => ?_, pageStep_cooldown_of_ne_timer p e,
    fun h0 => ?_⟩
  · rcases updateDashboard_dedup data p with h | h
    · exact ⟨h.1, by rw [h.2.1, hc]⟩
    · rw [hc] at h
      exact absurd h.2.2.1 (by decide)
  · rcases updateDashboard_dedup data p with h | h
    · rw [h.2.1, hc] at ht
      exact absurd ht (by decide)
    · obtain ⟨t, _, h1, _, _, h4, _⟩ := h.2.2.2
      exact ⟨⟨_, h1⟩, h4⟩
  · rcases updateDashboard_dedup data p with h | h
    · exact h.2.1
    · obtain ⟨t, _, h1, _⟩ := h.2.2.2
      rw [h1] at ht
      exact absurd ht (by simp)
  · show (cooldownTimerFires p).alertCooldown = false
    unfold cooldownTimerFires
    rw [if_neg (by omega)]

theorem cooldown_blocks_and_only_timer_clears_witness :
    (pageStep DashboardPage.sample
        (PageEvent.frame (Frame.withStatus "Danger" 100 true))).alertCooldown = true
    ∧ (updateDashboard (Frame.withStatus "Danger" 100 true)
        (pageStep DashboardPage.sample
          (PageEvent.frame (Frame.withStatus "Danger" 100 true)))).page.toasts
      = (pageStep DashboardPage.sample
          (PageEvent.frame (Frame.withStatus "Danger" 100 true))).toasts
    ∧ (pageStep DashboardPage.sample
        (PageEvent.frame (Frame.withStatus "Danger" 100 true))).toasts.length = 1
    ∧ (pageStep (pageStep DashboardPage.sample
          (PageEvent.frame (Frame.withStatus "Danger" 100 true)))
        PageEvent.cooldownTimer).alertCooldown = false :=
  ⟨by decide,
    ((cooldown_blocks_and_only_timer_clears (Frame.withStatus "Danger" 100 true)
      (pageStep DashboardPage.sample (PageEvent.frame (Frame.withStatus "Danger" 100 true)))
      PageEvent.socketOpen).1 (by decide)).1,
    by decide,
    (cooldown_blocks_and_only_timer_clears (Frame.withStatus "Danger" 100 true)
      (pageStep DashboardPage.sample (PageEvent.frame (Frame.withStatus "Danger" 100 true)))
      PageEvent.socketOpen).2.2.2.2 (by decide)⟩

/-- While the marker is "Danger" and no frame has status "Safe", no event shows a toast and
the marker stays "Danger". -/
theorem pageRun_danger_marker (es : List PageEvent) :
    ∀ p : DashboardPage, p.lastAlertStatus = "Danger" →
      (∀ e ∈ es, e.isSafeFrame = false) →
      (pageRun p es).toasts = p.toasts ∧ (pageRun p es).lastAlertStatus = "Danger" := by
  induction es with
  | nil => intro p hl _; exact ⟨rfl, hl⟩
  | cons e es ih =>
    intro p hl hsafe
    have he : e.isSafeFrame = false := hsafe e (List.mem_cons_self _ _)
    have hstep : (pageStep p e).toasts = p.toasts
        ∧ (pageStep p e).lastAlertStatus = "Danger" := by
      cases e with
      | frame data =>
        have hns : data.status ≠ some "Safe" := by
          simpa [PageEvent.isSafeFrame] using he
        show (updateDashboard data p).page.toasts = p.toasts
          ∧ (updateDashboard data p).page.lastAlertStatus = "Danger"
        rcases updateDashboard_dedup data p with h | h
        · refine ⟨h.1, ?_⟩
          rcases h.2.2.2 with h2 | h2
          · rw [h2, hl]
          · exact absurd h2.1 hns
        · exact absurd hl h.2.1
      | cooldownTimer =>
        have h := cooldownTimerFires_dedup p
        exact ⟨h.1, by rw [← hl]; exact h.2⟩
      | socketOpen => exact ⟨rfl, hl⟩
      | socketError => exact ⟨rfl, hl⟩
      | socketClose => exact ⟨rfl, hl⟩
      | reconnectTimer => exact ⟨rfl, hl⟩
    obtain ⟨h1, h2⟩ := ih (pageStep p e) hstep.2
      (fun x hx => hsafe x (List.mem_cons_of_mem _ hx))
    rw [pageRun_cons, h1, h2]
    exact ⟨hstep.1, rfl⟩

/-- C22: the `dashboard.js` deduplicator is edge-triggered. When processing a frame shows a
toast, the marker `lastAlertStatus` becomes "Danger"; and from any state with that marker,
after any run of events (frames, cooldown expiries, socket events) that contains no frame
with status "Safe", no further toast has been shown and the marker is still "Danger",
however long the run and whether or not the cooldown has expired. -/
theorem edge_triggered_no_realert (data : Frame) (p : DashboardPage) (es : List PageEvent)
    (hfired : (updateDashboard data p).page.toasts ≠ p.toasts)
    (hsafe : ∀ e ∈ es, e.isSafeFrame = false) :
    (updateDashboard data p).page.lastAlertStatus = "Danger"
    ∧ (pageRun (updateDashboard data p).page es).toasts = (updateDashboard data p).page.toasts
    ∧ (pageRun (updateDashboard data p).page es).lastAlertStatus = "Danger" := by
  have hl : (updateDashboard data p).page.lastAlertStatus = "Danger" := by
    rcases updateDashboard_dedup data p with h | h
    · exact absurd h.1 hfired
    · obtain ⟨t, _, _, h2, _⟩ := h.2.2.2
      exact h2
  exact ⟨hl, pageRun_danger_marker es _ hl hsafe⟩

theorem edge_triggered_no_realert_witness :
    (updateDashboard (Frame.withStatus "Danger" 100 true) DashboardPage.sample).page.toasts
      ≠ DashboardPage.sample.toasts
    ∧ (pageRun (updateDashboard (Frame.withStatus "Danger" 100 true) DashboardPage.sample).page
        [PageEvent.frame (Frame.withStatus "Danger" 100 true), PageEvent.cooldownTimer,
         PageEvent.frame (Frame.withStatus "Warning" 60 true),
         PageEvent.frame (Frame.withStatus "Danger" 100 true)]).toasts
      = (updateDashboard (Frame.withStatus "Danger" 100 true) DashboardPage.sample).page.toasts
    ∧ (pageRun (updateDashboard (Frame.withStatus "Danger" 100 true) DashboardPage.sample).page
        [PageEvent.frame (Frame.withStatus "Danger" 100 true), PageEvent.cooldownTimer,
         PageEvent.frame (Frame.withStatus "Warning" 60 true),
         PageEvent.frame (Frame.withStatus "Danger" 100 true)]).alertCooldown = false :=
  ⟨by decide,
    (edge_triggered_no_realert (Frame.withStatus "Danger" 100 true) DashboardPage.sample
      [PageEvent.frame (Frame.withStatus "Danger" 100 true), PageEvent.cooldownTimer,
       PageEvent.frame (Frame.withStatus "Warning" 60 true),
       PageEvent.frame (Frame.withStatus "Danger" 100 true)]
      (by decide) (by decide)).2.1,
    by decide⟩

/-- Rule 3 on frames with a numeric `risk_score`. A frame with status "Safe" sets the
marker `lastAlertStatus` to "Safe", shows no toast and leaves the cooldown flag as it was;
further frames that are not Danger frames keep the marker and show no toast; the first
Danger frame whose `risk_score` is a number, processed after that while no cooldown is
active, shows exactly one toast, sets the marker to "Danger" and turns the cooldown on. -/
theorem safe_frame_rearms (safe other danger : Frame) (p : DashboardPage) (r : ℚ)
    (hsafe : safe.status = some "Safe") (hother : other.status ≠ some "Danger")
    (hdanger : danger.status = some "Danger") (hr : danger.risk_score = JSVal.num r) :
    ((updateDashboard safe p).page.lastAlertStatus = "Safe"
      ∧ (updateDashboard safe p).page.toasts = p.toasts
      ∧ (updateDashboard safe p).page.alertCooldown = p.alertCooldown)
    ∧ ((updateDashboard other (updateDashboard safe p).page).page.lastAlertStatus = "Safe"
      ∧ (updateDashboard other (updateDashboard safe p).page).page.toasts = p.toasts
      ∧ (updateDashboard other (updateDashboard safe p).page).page.alertCooldown
          = p.alertCooldown)
    ∧ (p.alertCooldown = false →
        (updateDashboard danger (updateDashboard safe p).page).page.toasts
          = p.toasts ++ [{ riskScoreText := NumText.fixed r 0, kind := "danger" }]
        ∧ (updateDashboard danger (updateDashboard safe p).page).page.lastAlertStatus
          = "Danger"
        ∧ (updateDashboard danger (updateDashboard safe p).page).page.alertCooldown = true)
    ∧ (p.alertCooldown = false →
        (updateDashboard danger
          (updateDashboard other (updateDashboard safe p).page).page).page.toasts
          = p.toasts ++ [{ riskScoreText := NumText.fixed r 0, kind := "danger" }]
        ∧ (updateDashboard danger
          (updateDashboard other (updateDashboard safe p).page).page).page.lastAlertStatus
          = "Danger"
        ∧ (updateDashboard danger
          (updateDashboard other (updateDashboard safe p).page).page).page.alertCooldown
          = true) := by
  obtain ⟨s1, s2, s3, _, _⟩ := updateDashboard_safe safe p hsafe
  have ho : (updateDashboard other (updateDashboard safe p).page).page.lastAlertStatus = "Safe"
      ∧ (updateDashboard other (updateDashboard safe p).page).page.toasts = p.toasts
      ∧ (updateDashboard other (updateDashboard safe p).page).page.alertCooldown
          = p.alertCooldown := by
    rcases updateDashboard_dedup other (updateDashboard safe p).page with h | h
    · refine ⟨?_, by rw [h.1, s2], by rw [h.2.1, s3]⟩
      rcases h.2.2.2 with h2 | h2
      · rw [h2, s1]
      · exact h2.2
    · exact absurd h.1 hother
  refine ⟨⟨s1, s2, s3⟩, ho, fun hc => ?_, fun hc => ?_⟩
  · obtain ⟨d1, d2, d3, _, _⟩ := updateDashboard_danger danger (updateDashboard safe p).page r
      hdanger (by rw [s1]; decide) (by rw [s3, hc]) hr
    rw [s2] at d1
    exact ⟨d1, d2, d3⟩
  · obtain ⟨d1, d2, d3, _, _⟩ := updateDashboard_danger danger
      (updateDashboard other (updateDashboard safe p).page).page r
      hdanger (by rw [ho.1]; decide) (by rw [ho.2.2, hc]) hr
    rw [ho.2.1] at d1
    exact ⟨d1, d2, d3⟩

theorem safe_frame_rearms_witness :
    (Frame.withStatus "Safe" 10 true).status = some "Safe"
    ∧ (Frame.withStatus "Warning" 60 true).status ≠ some "Danger"
    ∧ (Frame.withStatus "Danger" 100 true).status = some "Danger"
    ∧ (Frame.withStatus "Danger" 100 true).risk_score = JSVal.num 100
    ∧ (pageRun DashboardPage.sample
        [PageEvent.frame (Frame.withStatus "Danger" 100 true),
         PageEvent.cooldownTimer]).alertCooldown = false
    ∧ (pageRun DashboardPage.sample
        [PageEvent.frame (Frame.withStatus "Danger" 100 true),
         PageEvent.cooldownTimer]).lastAlertStatus = "Danger"
    ∧ (updateDashboard (Frame.withStatus "Danger" 100 true)
        (updateDashboard (Frame.withStatus "Safe" 10 true)
          (pageRun DashboardPage.sample
            [PageEvent.frame (Frame.withStatus "Danger" 100 true),
             PageEvent.cooldownTimer])).page).page.toasts
      = (pageRun DashboardPage.sample
          [PageEvent.frame (Frame.withStatus "Danger" 100 true),
           PageEvent.cooldownTimer]).toasts
        ++ [{ riskScoreText := NumText.fixed 100 0, kind := "danger" }] :=
  ⟨rfl, by decide, rfl, rfl, by decide, by decide,
    ((safe_frame_rearms (Frame.withStatus "Safe" 10 true) (Frame.withStatus "Warning" 60 true)
      (Frame.withStatus "Danger" 100 true)
      (pageRun DashboardPage.sample
        [PageEvent.frame (Frame.withStatus "Danger" 100 true), PageEvent.cooldownTimer])
      100 rfl (by decide) rfl rfl).2.2.1 (by decide)).1⟩

/-! ## The connection indicator and frames -/

/-- C28 (as stated, fails): `updateDashboard` rewrites the connection indicator. After the
socket has opened (indicator "Connected"), a frame with `sensor_connected` false leaves the
indicator at "Disconnected" with the red dot, and a frame with `sensor_connected` true
leaves the text "Connected (COM9)". -/
theorem updateDashboard_rewrites_indicator :
    DashboardPage.sample.client.indicator.text = "Connected"
    ∧ (updateDashboard (Frame.withStatus "Safe" 10 false)
        DashboardPage.sample).page.client.indicator.text = "Disconnected"
    ∧ (updateDashboard (Frame.withStatus "Safe" 10 false)
        DashboardPage.sample).page.client.indicator.dotClass = "w-2 h-2 rounded-full bg-red-500"
    ∧ (updateDashboard (Frame.withStatus "Safe" 10 false)
        DashboardPage.sample).page.client.indicator ≠ DashboardPage.sample.client.indicator
    ∧ (updateDashboard (Frame.withStatus "Safe" 10 true)
        DashboardPage.sample).page.client.indicator.text = "Connected (COM9)" := by
  refine ⟨rfl, by decide, by decide, by decide, by decide⟩

/-- C28 (amended): processing a frame never changes the reconnect counter, the scheduled
reconnects or the sockets of the stream client, but `updateDashboard`, when it completes,
rewrites the connection indicator from the frame: green dot and "Connected (COM9)" when
`sensor_connected` is truthy, red dot and "Disconnected" when it is falsy, whatever the
indicator showed before. -/
theorem updateDashboard_indicator_from_frame (data : Frame) (p : DashboardPage) :
    (updateDashboard data p).page.client.reconnectAttempts = p.client.reconnectAttempts
    ∧ (updateDashboard data p).page.client.scheduled = p.client.scheduled
    ∧ (updateDashboard data p).page.client.sockets = p.client.sockets
    ∧ ((updateDashboard data p).thrown = none → data.sensor_connected = true →
        (updateDashboard data p).page.client.indicator
          = { dotClass := "w-2 h-2 rounded-full bg-emerald-500 animate-pulse"
              text := "Connected (COM9)"
              textClass := "text-xs font-medium text-emerald-600 dark:text-emerald-400" })
    ∧ ((updateDashboard data p).thrown = none → data.sensor_connected = false →
        (updateDashboard data p).page.client.indicator
          = { dotClass := "w-2 h-2 rounded-full bg-red-500"
              text := "Disconnected"
              textClass := "text-xs font-medium text-red-600 dark:text-red-400" }) := by
  have hclient : ((updateDashboard data p).thrown ≠ none
        ∧ (updateDashboard data p).page.client = p.client)
      ∨ ((updateDashboard data p).thrown = none
        ∧ (updateDashboard data p).page.client = onmessage (some data.sensor_connected) p.client)
      := by
    by_cases hc : data.status = some "Danger" ∧ p.lastAlertStatus ≠ "Danger"
        ∧ p.alertCooldown = false
    · cases ht : data.risk_score.toFixed 0 with
      | error e =>
        left
        unfold updateDashboard
        simp [hc, ht]
      | ok t =>
        right
        unfold updateDashboard
        simp [hc, ht, updateConnectionStatus]
    · right
      unfold updateDashboard
      simp only [ne_eq] at hc
      simp only [ne_eq, hc, if_false]
      split_ifs <;> simp [updateConnectionStatus]
  have hthrown : (updateDashboard data p).thrown = none →
      (updateDashboard data p).page.client = onmessage (some data.sensor_connected) p.client := by
    intro hn
    rcases hclient with h | h
    · exact absurd hn h.1
    · exact h.2
  refine ⟨?_, ?_, ?_, fun hn hc => ?_, fun hn hc => ?_⟩
  · rcases hclient with h | h
    · rw [h.2]
    · rw [h.2, onmessage_reconnectAttempts]
  · rcases hclient with h | h
    · rw [h.2]
    · rw [h.2, onmessage_scheduled]
  · rcases hclient with h | h
    · rw [h.2]
    · rw [h.2]
      cases data.sensor_connected <;> rfl
  · rw [hthrown hn, hc]
    rfl
  · rw [hthrown hn, hc]
    rfl

theorem updateDashboard_indicator_from_frame_witness :
    (updateDashboard (Frame.withStatus "Safe" 10 false) DashboardPage.sample).thrown = none
    ∧ (Frame.withStatus "Safe" 10 false).sensor_connected = false
    ∧ (updateDashboard (Frame.withStatus "Safe" 10 false)
        DashboardPage.sample).page.client.indicator
      = { dotClass := "w-2 h-2 rounded-full bg-red-500"
          text := "Disconnected"
          textClass := "text-xs font-medium text-red-600 dark:text-red-400" }
    ∧ (updateDashboard (Frame.withStatus "Safe" 10 true) DashboardPage.sample).thrown = none
    ∧ (updateDashboard (Frame.withStatus "Safe" 10 true)
        DashboardPage.sample).page.client.indicator.text = "Connected (COM9)" :=
  ⟨by decide, rfl,
    (updateDashboard_indicator_from_frame (Frame.withStatus "Safe" 10 false)
      DashboardPage.sample).2.2.2.2 (by decide) rfl,
    by decide,
    by
      rw [(updateDashboard_indicator_from_frame (Frame.withStatus "Safe" 10 true)
        DashboardPage.sample).2.2.2.1 (by decide) rfl]⟩

/-! ## Rule 2 and the order of the rules on the Alerts page -/

/-- The second branch of the detection effect, for a score in `[50, 100)` and a prediction
other than "SAFE". -/
theorem Alerts.newAlert_rule2 (now : Nat) (data : Frame) (alerts : List Alert) (s : ℚ)
    (hs : data.risk_score = JSVal.num s) (h50 : 50 ≤ s) (h100 : s < 100)
    (hp : data.ml_prediction ≠ some "SAFE") :
    Alerts.newAlert now data alerts
      = if Alerts.timeSinceLastAlert now alerts > 5000
        then some (Alerts.mediumAlert now data) else none := by
  unfold Alerts.newAlert
  have h1 : ¬ jsGe data.risk_score 100 = true := by
    rw [hs, jsGe_num, decide_eq_true_eq]
    exact not_le.mpr h100
  have h2 : jsGe data.risk_score 50 = true ∧ data.ml_prediction ≠ some "SAFE" := by
    refine ⟨?_, hp⟩
    rw [hs, jsGe_num, decide_eq_true_eq]
    exact h50
  rw [if_neg h1, if_pos h2]
  rfl

theorem Alerts.newAlert_none_of_lt (now : Nat) (data : Frame) (alerts : List Alert) (s : ℚ)
    (hs : data.risk_score = JSVal.num s) (h50 : s < 50) :
    Alerts.newAlert now data alerts = none := by
  unfold Alerts.newAlert
  have h1 : ¬ jsGe data.risk_score 100 = true := by
    rw [hs, jsGe_num, decide_eq_true_eq]
    exact not_le.mpr (by linarith)
  have h2 : ¬ (jsGe data.risk_score 50 = true ∧ data.ml_prediction ≠ some "SAFE") := by
    rintro ⟨h, _⟩
    rw [hs, jsGe_num, decide_eq_true_eq] at h
    linarith
  rw [if_neg h1, if_neg h2]

theorem Alerts.newAlert_none_of_safe (now : Nat) (data : Frame) (alerts : List Alert) (s : ℚ)
    (hs : data.risk_score = JSVal.num s) (h100 : s < 100)
    (hp : data.ml_prediction = some "SAFE") :
    Alerts.newAlert now data alerts = none := by
  unfold Alerts.newAlert
  have h1 : ¬ jsGe data.risk_score 100 = true := by
    rw [hs, jsGe_num, decide_eq_true_eq]
    exact not_le.mpr h100
  have h2 : ¬ (jsGe data.risk_score 50 = true ∧ data.ml_prediction ≠ some "SAFE") := by
    rintro ⟨_, h⟩
    exact h hp
  rw [if_neg h1, if_neg h2]

theorem Alerts.render_alerts_of_none (now : Nat) (data : Frame) (p : AlertsPage)
    (h : Alerts.newAlert now data p.alerts = none) :
    (Alerts.render now data p).alerts = p.alerts := by
  unfold Alerts.render
  split_ifs
  · rfl
  · show Alerts.effect now data p.alerts = p.alerts
    unfold Alerts.effect
    rw [h]

/-- A render leaves the list as it was or puts one new alert in front of it. -/
theorem Alerts.render_alerts_cases (now : Nat) (data : Frame) (p : AlertsPage) :
    (Alerts.render now data p).alerts = p.alerts
    ∨ ∃ a, Alerts.newAlert now data p.alerts = some a
        ∧ (Alerts.render now data p).alerts = a :: p.alerts.take 99 := by
  unfold Alerts.render
  split_ifs
  · left; rfl
  · show Alerts.effect now data p.alerts = p.alerts ∨ _
    unfold Alerts.effect
    cases h : Alerts.newAlert now data p.alerts with
    | none => left; rfl
    | some a => right; exact ⟨a, rfl, rfl⟩

/-- C24 (as stated, fails): the test is `timeSinceLastAlert > 5000`. For `risk_score = 60`
and prediction "WARN", with the head alert stamped 1000 and the clock at 6000 (exactly
5000 ms elapsed), no alert is emitted; one millisecond later a MEDIUM alert is. And a frame
whose `risk_score` and `ml_prediction` equal those of the previous render emits nothing even
6000 ms after the head alert, because the effect does not run. -/
theorem alerts_medium_not_at_exactly_5000 :
    Alerts.newAlert 6000 (Frame.withRisk 60 "WARN")
        [Alerts.highAlert 1000 (Frame.withRisk 100 "WARN")] = none
    ∧ Alerts.effect 6000 (Frame.withRisk 60 "WARN")
        [Alerts.highAlert 1000 (Frame.withRisk 100 "WARN")]
      = [Alerts.highAlert 1000 (Frame.withRisk 100 "WARN")]
    ∧ Alerts.newAlert 6001 (Frame.withRisk 60 "WARN")
        [Alerts.highAlert 1000 (Frame.withRisk 100 "WARN")]
      = some (Alerts.mediumAlert 6001 (Frame.withRisk 60 "WARN"))
    ∧ (Alerts.render 7000 (Frame.withRisk 60 "WARN")
        { alerts := [Alerts.mediumAlert 1000 (Frame.withRisk 60 "WARN")]
          deps := some (JSVal.num 60, some "WARN") }).alerts
      = [Alerts.mediumAlert 1000 (Frame.withRisk 60 "WARN")] := by
  have h5000 : Alerts.newAlert 6000 (Frame.withRisk 60 "WARN")
      [Alerts.highAlert 1000 (Frame.withRisk 100 "WARN")] = none := by
    rw [Alerts.newAlert_rule2 6000 _ _ 60 rfl (by norm_num) (by norm_num) (by decide)]
    decide
  refine ⟨h5000, ?_, ?_, ?_⟩
  · unfold Alerts.effect
    rw [h5000]
  · rw [Alerts.newAlert_rule2 6001 _ _ 60 rfl (by norm_num) (by norm_num) (by decide)]
    decide
  · rw [Alerts.render_of_eq 7000 _ _ rfl]

/-- C24 (amended): on the Alerts page, when the detection effect runs for a frame with
`50 <= risk_score < 100` and `ml_prediction` other than "SAFE", an alert is emitted if and
only if the alert list is empty or more than 5000 ms have elapsed since the timestamp of
the alert at its head; the alert is then one MEDIUM alert put at the head. An elapsed time
of exactly 5000 ms, or of 4000 ms, emits nothing; 6000 ms emits exactly one MEDIUM alert. -/
theorem alerts_medium_iff_elapsed (now : Nat) (data : Frame) (alerts : List Alert) (s : ℚ)
    (hs : data.risk_score = JSVal.num s) (h50 : 50 ≤ s) (h100 : s < 100)
    (hp : data.ml_prediction ≠ some "SAFE") :
    ((∃ a, Alerts.newAlert now data alerts = some a)
        ↔ (alerts = []
          ∨ ∃ last rest, alerts = last :: rest ∧ (now : Int) - (last.timestamp : Int) > 5000))
    ∧ (∀ a, Alerts.newAlert now data alerts = some a →
        a = Alerts.mediumAlert now data ∧ a.severity = "MEDIUM"
        ∧ Alerts.effect now data alerts = a :: alerts.take 99)
    ∧ (Alerts.newAlert now data alerts = none → Alerts.effect now data alerts = alerts)
    ∧ (∀ last rest, alerts = last :: rest → (now : Int) - (last.timestamp : Int) = 5000 →
        Alerts.newAlert now data alerts = none)
    ∧ (∀ last rest, alerts = last :: rest → (now : Int) - (last.timestamp : Int) = 4000 →
        Alerts.newAlert now data alerts = none)
    ∧ (∀ last rest, alerts = last :: rest → (now : Int) - (last.timestamp : Int) = 6000 →
        Alerts.effect now data alerts = Alerts.mediumAlert now data :: alerts.take 99) := by
  have hrule := Alerts.newAlert_rule2 now data alerts s hs h50 h100 hp
  have htime : ∀ last rest, alerts = last :: rest →
      Alerts.timeSinceLastAlert now alerts = (now : Int) - (last.timestamp : Int) := by
    intro last rest h
    rw [h]
    rfl
  refine ⟨?_, ?_, ?_, ?_, ?_, ?_⟩
  · rw [hrule]
    constructor
    · rintro ⟨a, ha⟩
      split_ifs at ha with h
      cases alerts with
      | nil => left; rfl
      | cons last rest =>
        right
        refine ⟨last, rest, rfl, ?_⟩
        rw [htime last rest rfl] at h
        exact h
    · rintro (h | ⟨last, rest, h, ht⟩)
      · rw [h]
        exact ⟨_, rfl⟩
      · rw [← htime last rest h] at ht
        rw [if_pos ht]
        exact ⟨_, rfl⟩
  · intro a ha
    have ha2 := ha
    rw [hrule] at ha2
    split_ifs at ha2
    cases ha2
    refine ⟨rfl, rfl, ?_⟩
    unfold Alerts.effect
    rw [ha]
    rfl
  · intro h
    unfold Alerts.effect
    rw [h]
  · intro last rest h ht
    rw [hrule, htime last rest h, ht]
    rfl
  · intro last rest h ht
    rw [hrule, htime last rest h, ht]
    rfl
  · intro last rest h ht
    unfold Alerts.effect
    rw [hrule, htime last rest h, ht]
    rfl

theorem alerts_medium_iff_elapsed_witness :
    (Frame.withRisk 60 "WARN").risk_score = JSVal.num 60
    ∧ (50 : ℚ) ≤ 60 ∧ (60 : ℚ) < 100
    ∧ (Frame.withRisk 60 "WARN").ml_prediction ≠ some "SAFE"
    ∧ Alerts.newAlert 5000 (Frame.withRisk 60 "WARN")
        [Alerts.highAlert 1000 (Frame.withRisk 100 "WARN")] = none
    ∧ Alerts.effect 7000 (Frame.withRisk 60 "WARN")
        [Alerts.highAlert 1000 (Frame.withRisk 100 "WARN")]
      = Alerts.mediumAlert 7000 (Frame.withRisk 60 "WARN")
          :: [Alerts.highAlert 1000 (Frame.withRisk 100 "WARN")].take 99
    ∧ ∃ a, Alerts.newAlert 7000 (Frame.withRisk 60 "WARN") [] = some a :=
  ⟨rfl, by norm_num, by norm_num, by decide,
    (alerts_medium_iff_elapsed 5000 (Frame.withRisk 60 "WARN")
      [Alerts.highAlert 1000 (Frame.withRisk 100 "WARN")] 60 rfl (by norm_num) (by norm_num)
      (by decide)).2.2.2.2.1 _ _ rfl (by decide),
    (alerts_medium_iff_elapsed 7000 (Frame.withRisk 60 "WARN")
      [Alerts.highAlert 1000 (Frame.withRisk 100 "WARN")] 60 rfl (by norm_num) (by norm_num)
      (by decide)).2.2.2.2.2 _ _ rfl (by decide),
    (alerts_medium_iff_elapsed 7000 (Frame.withRisk 60 "WARN") [] 60 rfl (by norm_num)
      (by norm_num) (by decide)).1.mpr (Or.inl rfl)⟩

/-- C25: on the Alerts page each processed frame produces zero or one new alert and the
rules are tried in order. A render leaves the list unchanged or puts exactly one alert at
its head, so the list grows by at most one entry; a frame with `risk_score >= 100` yields a
HIGH alert, never a MEDIUM one; a frame with `risk_score < 50`, or with `ml_prediction`
"SAFE" and `risk_score < 100`, yields no alert and leaves the list unchanged. -/
theorem alerts_zero_or_one_in_order (now : Nat) (data : Frame) (p : AlertsPage) (s : ℚ)
    (hs : data.risk_score = JSVal.num s) :
    ((Alerts.render now data p).alerts = p.alerts
      ∨ ∃ a, (Alerts.render now data p).alerts = a :: p.alerts.take 99)
    ∧ (Alerts.render now data p).alerts.length ≤ p.alerts.length + 1
    ∧ (100 ≤ s → ∀ a, Alerts.newAlert now data p.alerts = some a →
        a.severity = "HIGH" ∧ a.severity ≠ "MEDIUM")
    ∧ (s < 50 →
        Alerts.newAlert now data p.alerts = none
        ∧ (Alerts.render now data p).alerts = p.alerts)
    ∧ (s < 100 → data.ml_prediction = some "SAFE" →
        Alerts.newAlert now data p.alerts = none
        ∧ (Alerts.render now data p).alerts = p.alerts) := by
  have hcases := Alerts.render_alerts_cases now data p
  refine ⟨?_, ?_, ?_, ?_, ?_⟩
  · rcases hcases with h | ⟨a, _, h⟩
    · left; exact h
    · right; exact ⟨a, h⟩
  · rcases hcases with h | ⟨a, _, h⟩
    · rw [h]; omega
    · rw [h, List.length_cons, List.length_take]; omega
  · intro h100 a ha
    have hge : jsGe data.risk_score 100 = true := by
      rw [hs, jsGe_num, decide_eq_true_eq]
      exact h100
    rw [Alerts.newAlert_of_ge now data p.alerts hge] at ha
    cases ha
    refine ⟨rfl, ?_⟩
    show "HIGH" ≠ "MEDIUM"
    decide
  · intro h50
    have h := Alerts.newAlert_none_of_lt now data p.alerts s hs h50
    exact ⟨h, Alerts.render_alerts_of_none now data p h⟩
  · intro h100 hp
    have h := Alerts.newAlert_none_of_safe now data p.alerts s hs h100 hp
    exact ⟨h, Alerts.render_alerts_of_none now data p h⟩

theorem alerts_zero_or_one_in_order_witness :
    (Frame.withRisk 80 "SAFE").risk_score = JSVal.num 80
    ∧ (80 : ℚ) < 100
    ∧ (Frame.withRisk 80 "SAFE").ml_prediction = some "SAFE"
    ∧ (Alerts.render 1000 (Frame.withRisk 80 "SAFE") (Alerts.mount 0)).alerts
        = (Alerts.mount 0).alerts
    ∧ (Frame.withRisk 100 "WARN").risk_score = JSVal.num 100
    ∧ (∀ a, Alerts.newAlert 1000 (Frame.withRisk 100 "WARN") (Alerts.mount 0).alerts = some a →
        a.severity = "HIGH" ∧ a.severity ≠ "MEDIUM") :=
  ⟨rfl, by norm_num, rfl,
    ((alerts_zero_or_one_in_order 1000 (Frame.withRisk 80 "SAFE") (Alerts.mount 0) 80
      rfl).2.2.2.2 (by norm_num) rfl).2,
    rfl,
    (alerts_zero_or_one_in_order 1000 (Frame.withRisk 100 "WARN") (Alerts.mount 0) 100
      rfl).2.2.1 (le_refl _)⟩

/-! ## Alert ids -/

theorem Alerts.renderAll_nil (p : AlertsPage) : Alerts.renderAll p [] = p := rfl

theorem Alerts.renderAll_cons (p : AlertsPage) (x : Nat × Frame) (xs : List (Nat × Frame)) :
    Alerts.renderAll p (x :: xs) = Alerts.renderAll (Alerts.render x.1 x.2 p) xs := rfl

theorem Alerts.newAlert_severity (now : Nat) (data : Frame) (alerts : List Alert) (a : Alert)
    (h : Alerts.newAlert now data alerts = some a) :
    a.severity = "HIGH" ∨ a.severity = "MEDIUM" := by
  by_cases hge : jsGe data.risk_score 100 = true
  · rw [Alerts.newAlert_of_ge now data alerts hge] at h
    cases h
    left; rfl
  · right
    exact Alerts.newAlert_not_high now data alerts hge a h

theorem Alerts.newAlert_id (now : Nat) (data : Frame) (alerts : List Alert) (a : Alert)
    (h : Alerts.newAlert now data alerts = some a) : a.id = now := by
  by_cases hge : jsGe data.risk_score 100 = true
  · rw [Alerts.newAlert_of_ge now data alerts hge] at h
    cases h
    rfl
  · unfold Alerts.newAlert at h
    rw [if_neg hge] at h
    split at h
    · dsimp only at h
      split at h
      · cases h
        rfl
      · cases h
    · cases h

/-- Under a strictly increasing clock the ids strictly decrease from the head to the tail of
the list. -/
theorem Alerts.renderAll_ids_decreasing (frames : List (Nat × Frame)) :
    ∀ (p : AlertsPage) (t : Nat), (∀ a ∈ p.alerts, a.id ≤ t) →
      p.alerts.Pairwise (fun a b => b.id < a.id) → clockIncreasing t frames = true →
      (Alerts.renderAll p frames).alerts.Pairwise (fun a b => b.id < a.id) := by
  induction frames with
  | nil => intro p t _ hp _; exact hp
  | cons x xs ih =>
    intro p t hle hp hclock
    simp only [clockIncreasing, Bool.and_eq_true, decide_eq_true_eq] at hclock
    rw [Alerts.renderAll_cons]
    apply ih (Alerts.render x.1 x.2 p) x.1 _ _ hclock.2
    · intro a ha
      rcases Alerts.render_alerts_cases x.1 x.2 p with h | ⟨b, hb, h⟩
      · rw [h] at ha
        exact le_trans (hle a ha) hclock.1.le
      · rw [h] at ha
        rcases List.mem_cons.mp ha with h1 | h1
        · rw [h1, Alerts.newAlert_id x.1 x.2 p.alerts b hb]
        · exact le_trans (hle a (List.mem_of_mem_take h1)) hclock.1.le
    · rcases Alerts.render_alerts_cases x.1 x.2 p with h | ⟨b, hb, h⟩
      · rw [h]
        exact hp
      · rw [h, List.pairwise_cons]
        refine ⟨?_, hp.sublist (List.take_sublist _ _)⟩
        intro a ha
        rw [Alerts.newAlert_id x.1 x.2 p.alerts b hb]
        exact lt_of_le_of_lt (hle a (List.mem_of_mem_take ha)) hclock.1

/-- C26 (fails on the code): alert ids are `Date.now()`. Under a non-decreasing clock, two
frames processed at the same instant 1000 (`risk_score` 100, then 101) give two distinct
alerts with the same id 1000: the ids are not unique and do not strictly decrease. -/
theorem alert_ids_collide_same_instant :
    clockNonDecreasing 0
        [(1000, Frame.withRisk 100 "CRITICAL"), (1000, Frame.withRisk 101 "CRITICAL")] = true
    ∧ (Alerts.renderAll (Alerts.mount 0)
        [(1000, Frame.withRisk 100 "CRITICAL"), (1000, Frame.withRisk 101 "CRITICAL")]).alerts
      = [Alerts.highAlert 1000 (Frame.withRisk 101 "CRITICAL"),
         Alerts.highAlert 1000 (Frame.withRisk 100 "CRITICAL")]
    ∧ Alerts.highAlert 1000 (Frame.withRisk 101 "CRITICAL")
      ≠ Alerts.highAlert 1000 (Frame.withRisk 100 "CRITICAL")
    ∧ (Alerts.highAlert 1000 (Frame.withRisk 101 "CRITICAL")).id
      = (Alerts.highAlert 1000 (Frame.withRisk 100 "CRITICAL")).id
    ∧ ¬ ((Alerts.renderAll (Alerts.mount 0)
        [(1000, Frame.withRisk 100 "CRITICAL"),
         (1000, Frame.withRisk 101 "CRITICAL")]).alerts.map (fun a => a.id)).Nodup := by
  have h1 : Alerts.render 1000 (Frame.withRisk 100 "CRITICAL") (Alerts.mount 0)
      = { alerts := [Alerts.highAlert 1000 (Frame.withRisk 100 "CRITICAL")]
          deps := some (JSVal.num 100, some "CRITICAL") } := by
    rw [Alerts.render_withRisk 1000 100 "CRITICAL" _ (le_refl _)
      (by rw [Alerts.mount_eq]; simp), Alerts.mount_eq]
    rfl
  have h2 : Alerts.render 1000 (Frame.withRisk 101 "CRITICAL")
      { alerts := [Alerts.highAlert 1000 (Frame.withRisk 100 "CRITICAL")]
        deps := some (JSVal.num 100, some "CRITICAL") }
      = { alerts := [Alerts.highAlert 1000 (Frame.withRisk 101 "CRITICAL"),
                     Alerts.highAlert 1000 (Frame.withRisk 100 "CRITICAL")]
          deps := some (JSVal.num 101, some "CRITICAL") } := by
    rw [Alerts.render_withRisk 1000 101 "CRITICAL" _ (by norm_num) (by simp)]
    rfl
  have hall : (Alerts.renderAll (Alerts.mount 0)
      [(1000, Frame.withRisk 100 "CRITICAL"), (1000, Frame.withRisk 101 "CRITICAL")]).alerts
      = [Alerts.highAlert 1000 (Frame.withRisk 101 "CRITICAL"),
         Alerts.highAlert 1000 (Frame.withRisk 100 "CRITICAL")] := by
    rw [Alerts.renderAll_cons, Alerts.renderAll_cons, Alerts.renderAll_nil]
    show (Alerts.render 1000 (Frame.withRisk 101 "CRITICAL")
      (Alerts.render 1000 (Frame.withRisk 100 "CRITICAL") (Alerts.mount 0))).alerts = _
    rw [h1, h2]
  refine ⟨by decide, hall, ?_, rfl, ?_⟩
  · intro h
    have hm : (Alerts.highAlert 1000 (Frame.withRisk 101 "CRITICAL")).message
        = (Alerts.highAlert 1000 (Frame.withRisk 100 "CRITICAL")).message := by rw [h]
    simp [Alerts.highAlert, Frame.withRisk] at hm
  · rw [hall]
    simp [Alerts.highAlert]

/-! ## The alert filter -/

theorem toUpperCase_HIGH : toUpperCase "HIGH" = "HIGH" := by decide

theorem toUpperCase_MEDIUM : toUpperCase "MEDIUM" = "MEDIUM" := by decide

/-- Every alert of a list reached by rendering frames has severity HIGH or MEDIUM, as soon
as this holds for the starting list. -/
theorem Alerts.renderAll_severity (frames : List (Nat × Frame)) :
    ∀ p : AlertsPage, (∀ a ∈ p.alerts, a.severity = "HIGH" ∨ a.severity = "MEDIUM") →
      ∀ a ∈ (Alerts.renderAll p frames).alerts, a.severity = "HIGH" ∨ a.severity = "MEDIUM" := by
  induction frames with
  | nil => intro p hp; exact hp
  | cons x xs ih =>
    intro p hp
    rw [Alerts.renderAll_cons]
    apply ih
    intro a ha
    rcases Alerts.render_alerts_cases x.1 x.2 p with h | ⟨b, hb, h⟩
    · rw [h] at ha
      exact hp a ha
    · rw [h] at ha
      rcases List.mem_cons.mp ha with h1 | h1
      · rw [h1]
        exact Alerts.newAlert_severity x.1 x.2 p.alerts b hb
      · exact hp a (List.mem_of_mem_take h1)

theorem filteredAlerts_all (alerts : List Alert) : filteredAlerts "all" alerts = alerts := by
  unfold filteredAlerts
  rw [List.filter_eq_self]
  intro a _
  simp [filterPredicate]

theorem filteredAlerts_danger (alerts : List Alert) :
    filteredAlerts "danger" alerts
      = alerts.filter (fun a => decide (toUpperCase a.severity = "HIGH")) := by
  unfold filteredAlerts
  congr 1

theorem filteredAlerts_warning (alerts : List Alert) :
    filteredAlerts "warning" alerts
      = alerts.filter (fun a => decide (toUpperCase a.severity = "MEDIUM")) := by
  unfold filteredAlerts
  congr 1

/-- C29: the alert filter returns an order-preserving sublist of the alert list. The filter
`all`, and any value other than `danger` and `warning`, returns the list unchanged; `danger`
returns exactly the alerts whose severity in upper case is HIGH, `warning` exactly those
whose severity in upper case is MEDIUM. No alert is in both results, and in every list
reached from the mounted page by processing frames each alert is in one of them. -/
theorem alert_filter_sublist_partition (filter : String) (alerts : List Alert)
    (t0 : Nat) (frames : List (Nat × Frame)) :
    (filteredAlerts filter alerts).Sublist alerts
    ∧ filteredAlerts "all" alerts = alerts
    ∧ (filter ≠ "danger" → filter ≠ "warning" → filteredAlerts filter alerts = alerts)
    ∧ (∀ a, a ∈ filteredAlerts "danger" alerts ↔ (a ∈ alerts ∧ toUpperCase a.severity = "HIGH"))
    ∧ (∀ a, a ∈ filteredAlerts "warning" alerts
        ↔ (a ∈ alerts ∧ toUpperCase a.severity = "MEDIUM"))
    ∧ filteredAlerts "danger" alerts
        = alerts.filter (fun a => decide (toUpperCase a.severity = "HIGH"))
    ∧ filteredAlerts "warning" alerts
        = alerts.filter (fun a => decide (toUpperCase a.severity = "MEDIUM"))
    ∧ (∀ a, a ∈ filteredAlerts "danger" alerts → a ∉ filteredAlerts "warning" alerts)
    ∧ (∀ a ∈ (Alerts.renderAll (Alerts.mount t0) frames).alerts,
        a ∈ filteredAlerts "danger" (Alerts.renderAll (Alerts.mount t0) frames).alerts
        ∨ a ∈ filteredAlerts "warning" (Alerts.renderAll (Alerts.mount t0) frames).alerts) := by
  have hd : ∀ (l : List Alert) (a : Alert),
      a ∈ filteredAlerts "danger" l ↔ (a ∈ l ∧ toUpperCase a.severity = "HIGH") := by
    intro l a
    rw [filteredAlerts_danger, List.mem_filter, decide_eq_true_eq]
  have hw : ∀ (l : List Alert) (a : Alert),
      a ∈ filteredAlerts "warning" l ↔ (a ∈ l ∧ toUpperCase a.severity = "MEDIUM") := by
    intro l a
    rw [filteredAlerts_warning, List.mem_filter, decide_eq_true_eq]
  refine ⟨List.filter_sublist _, filteredAlerts_all alerts, ?_, hd alerts, hw alerts,
    filteredAlerts_danger alerts, filteredAlerts_warning alerts, ?_, ?_⟩
  · intro h1 h2
    unfold filteredAlerts
    rw [List.filter_eq_self]
    intro a _
    simp [filterPredicate, h1, h2]
  · intro a ha hb
    have h1 := ((hd alerts a).mp ha).2
    have h2 := ((hw alerts a).mp hb).2
    rw [h1] at h2
    exact absurd h2 (by decide)
  · intro a ha
    have hsev := Alerts.renderAll_severity frames (Alerts.mount t0)
      (by rw [Alerts.mount_eq]; intro a ha; cases ha) a ha
    rcases hsev with h | h
    · left
      exact (hd _ a).mpr ⟨ha, by rw [h]; exact toUpperCase_HIGH⟩
    · right
      exact (hw _ a).mpr ⟨ha, by rw [h]; exact toUpperCase_MEDIUM⟩

theorem alert_filter_sublist_partition_witness :
    ("other" : String) ≠ "danger" ∧ ("other" : String) ≠ "warning"
    ∧ filteredAlerts "other"
        [Alerts.mediumAlert 7000 (Frame.withRisk 60 "WARN"),
         Alerts.highAlert 1000 (Frame.withRisk 100 "WARN")]
      = [Alerts.mediumAlert 7000 (Frame.withRisk 60 "WARN"),
         Alerts.highAlert 1000 (Frame.withRisk 100 "WARN")]
    ∧ Alerts.highAlert 1000 (Frame.withRisk 100 "WARN")
        ∈ filteredAlerts "danger"
          [Alerts.mediumAlert 7000 (Frame.withRisk 60 "WARN"),
           Alerts.highAlert 1000 (Frame.withRisk 100 "WARN")]
    ∧ Alerts.highAlert 1000 (Frame.withRisk 100 "WARN")
        ∉ filteredAlerts "warning"
          [Alerts.mediumAlert 7000 (Frame.withRisk 60 "WARN"),
           Alerts.highAlert 1000 (Frame.withRisk 100 "WARN")] :=
  ⟨by decide, by decide,
    (alert_filter_sublist_partition "other"
      [Alerts.mediumAlert 7000 (Frame.withRisk 60 "WARN"),
       Alerts.highAlert 1000 (Frame.withRisk 100 "WARN")] 0 []).2.2.1 (by decide) (by decide),
    by decide,
    (alert_filter_sublist_partition "other"
      [Alerts.mediumAlert 7000 (Frame.withRisk 60 "WARN"),
       Alerts.highAlert 1000 (Frame.withRisk 100 "WARN")] 0 []).2.2.2.2.2.2.2.1 _ (by decide)⟩

/-! ## CSV export -/

theorem csvRow_length (r : CsvRender) (a : Alert) : (csvRow r a).length = 5 := rfl

theorem orNA_none : orNA none = "N/A" := rfl

theorem orNA_some (text : String) (h : text ≠ "") : orNA (some text) = text := by
  show (if text = "" then "N/A" else text) = text
  rw [if_neg h]

/-- The rows of the CSV export before they are joined. For an alert list of length `n`
the export has the header line `Timestamp,Severity,Message,MQ2 (V),MQ135 (V)` followed by
`n` lines in list order (newest first), joined with line feeds. Each row is built from five
texts in the header's order: timestamp, severity, message, `mq2`, `mq135`; a missing `mq2`
or `mq135` gives `N/A` and a present one, whose text is never empty, is kept unchanged. The
texts are then joined with commas as they are, without quoting. -/
theorem exportCSV_header_and_rows (r : CsvRender) (alerts : List Alert) :
    (csvLines r alerts).length = alerts.length + 1
    ∧ (csvLines r alerts)[0]? = some "Timestamp,Severity,Message,MQ2 (V),MQ135 (V)"
    ∧ (∀ i : Nat, (csvRows r alerts)[i + 1]? = (alerts[i]?).map (csvRow r))
    ∧ (∀ i : Nat, (csvLines r alerts)[i + 1]?
        = (alerts[i]?).map (fun a => ",".intercalate (csvRow r a)))
    ∧ (∀ row ∈ csvRows r alerts, row.length = 5)
    ∧ (∀ a : Alert, (csvRow r a)[0]? = some (r.localeString a.timestamp)
        ∧ (csvRow r a)[1]? = some a.severity
        ∧ (csvRow r a)[2]? = some (r.messageText a.message))
    ∧ (∀ a : Alert, a.mq2 = none → (csvRow r a)[3]? = some "N/A")
    ∧ (∀ a : Alert, a.mq135 = none → (csvRow r a)[4]? = some "N/A")
    ∧ (∀ (a : Alert) (t : NumText), a.mq2 = some t → r.numText t ≠ "" →
        (csvRow r a)[3]? = some (r.numText t))
    ∧ (∀ (a : Alert) (t : NumText), a.mq135 = some t → r.numText t ≠ "" →
        (csvRow r a)[4]? = some (r.numText t))
    ∧ exportCSV r alerts
        = "\n".intercalate ("Timestamp,Severity,Message,MQ2 (V),MQ135 (V)"
            :: alerts.map (fun a => ",".intercalate (csvRow r a))) := by
  have hlines : csvLines r alerts
      = "Timestamp,Severity,Message,MQ2 (V),MQ135 (V)"
          :: alerts.map (fun a => ",".intercalate (csvRow r a)) := by
    unfold csvLines csvRows
    rw [List.map_cons, List.map_map]
    rfl
  refine ⟨?_, ?_, ?_, ?_, ?_, ?_, ?_, ?_, ?_, ?_, ?_⟩
  · rw [hlines, List.length_cons, List.length_map]
  · rw [hlines, List.getElem?_cons_zero]
  · intro i
    unfold csvRows
    rw [List.getElem?_cons_succ, List.getElem?_map]
  · intro i
    rw [hlines, List.getElem?_cons_succ, List.getElem?_map]
  · intro row hrow
    unfold csvRows at hrow
    rcases List.mem_cons.mp hrow with h | h
    · rw [h]
      rfl
    · obtain ⟨a, _, ha⟩ := List.mem_map.mp h
      rw [← ha]
      rfl
  · intro a
    exact ⟨rfl, rfl, rfl⟩
  · intro a h
    show some (orNA (a.mq2.map r.numText)) = some "N/A"
    rw [h]
    rfl
  · intro a h
    show some (orNA (a.mq135.map r.numText)) = some "N/A"
    rw [h]
    rfl
  · intro a t h hne
    show some (orNA (a.mq2.map r.numText)) = some (r.numText t)
    rw [h, Option.map_some', orNA_some _ hne]
  · intro a t h hne
    show some (orNA (a.mq135.map r.numText)) = some (r.numText t)
    rw [h, Option.map_some', orNA_some _ hne]
  · unfold exportCSV
    rw [hlines]

theorem exportCSV_header_and_rows_witness :
    (Alerts.highAlert 1000 (Frame.withRisk 100 "WARN")).mq2 = some (NumText.fixed 0 2)
    ∧ CsvRender.sample.numText (NumText.fixed 0 2) ≠ ""
    ∧ (csvRow CsvRender.sample (Alerts.highAlert 1000 (Frame.withRisk 100 "WARN")))[3]?
        = some "1.00"
    ∧ (Alerts.highAlert 1000 Frame.empty).mq2 = none
    ∧ (csvRow CsvRender.sample (Alerts.highAlert 1000 Frame.empty))[3]? = some "N/A"
    ∧ exportCSV CsvRender.sample
        [Alerts.highAlert 1000 (Frame.withRisk 100 "WARN"), Alerts.highAlert 900 Frame.empty]
      = "Timestamp,Severity,Message,MQ2 (V),MQ135 (V)\ndate,HIGH,critical,1.00,1.00\ndate,HIGH,critical,N/A,N/A" :=
  ⟨rfl, by decide,
    (exportCSV_header_and_rows CsvRender.sample []).2.2.2.2.2.2.2.2.1
      (Alerts.highAlert 1000 (Frame.withRisk 100 "WARN")) (NumText.fixed 0 2) rfl (by decide),
    rfl,
    (exportCSV_header_and_rows CsvRender.sample []).2.2.2.2.2.2.1
      (Alerts.highAlert 1000 Frame.empty) rfl,
    by
      rw [(exportCSV_header_and_rows CsvRender.sample
        [Alerts.highAlert 1000 (Frame.withRisk 100 "WARN"),
         Alerts.highAlert 900 Frame.empty]).2.2.2.2.2.2.2.2.2.2]
      decide⟩

/-! ## Monotonicity of the threshold classifier -/

/-- C30: the threshold classifier of `updateGauge` is monotone. The colour written for a
number is the colour of its bucket; for thresholds with `warn <= danger` and values
`v1 <= v2` the bucket of `v1` is not more severe than that of `v2` in the order
`Normal < Warn < Danger`; and when `warn >= danger` no value is classified Warn. -/
theorem classifier_monotone (chart : Chart) (max warn danger v1 v2 : ℚ) (rest : List ℚ) :
    writtenColor chart (JSVal.num v1) max (warn :: danger :: rest)
      = (classify v1 warn danger).color
    ∧ writtenColor chart (JSVal.num v2) max (warn :: danger :: rest)
      = (classify v2 warn danger).color
    ∧ (warn ≤ danger → v1 ≤ v2 →
        (classify v1 warn danger).rank ≤ (classify v2 warn danger).rank)
    ∧ (danger ≤ warn →
        classify v1 warn danger ≠ Bucket.Warn
        ∧ writtenColor chart (JSVal.num v1) max (warn :: danger :: rest) ≠ "#F59E0B") := by
  have hc : ∀ v : ℚ, writtenColor chart (JSVal.num v) max (warn :: danger :: rest)
      = (classify v warn danger).color := by
    intro v
    rw [writtenColor_eq, gaugeValue_num, gaugeColor_eq_classify]
  refine ⟨hc v1, hc v2, ?_, ?_⟩
  · intro hwd hv
    unfold classify
    split_ifs with h1 h2 h3 h4 h5 h6 <;> simp only [Bucket.rank] <;>
      first
        | omega
        | (exfalso; linarith)
  · intro hdw
    have hne : classify v1 warn danger ≠ Bucket.Warn := by
      rw [Ne, classify_eq_warn]
      rintro ⟨h1, h2⟩
      exact h2 (lt_of_le_of_lt hdw h1)
    refine ⟨hne, ?_⟩
    rw [hc, Ne, classify_color_warn]
    exact hne

theorem classifier_monotone_witness :
    (3 / 2 : ℚ) ≤ 2 ∧ (1 : ℚ) ≤ 5 / 2
    ∧ (classify 1 (3 / 2) 2).rank ≤ (classify (5 / 2) (3 / 2) 2).rank
    ∧ (1 : ℚ) ≤ 2
    ∧ classify (3 / 2) 2 1 ≠ Bucket.Warn :=
  ⟨by norm_num, by norm_num,
    (classifier_monotone gaugeMQ2 (33 / 10) (3 / 2) 2 1 (5 / 2) []).2.2.1
      (by norm_num) (by norm_num),
    by norm_num,
    ((classifier_monotone gaugeMQ2 (33 / 10) 2 1 (3 / 2) (5 / 2) []).2.2.2
      (by norm_num)).1⟩

/-! ## Rule 3 and a Danger frame without a score -/

/-- C23 (fails on the code): a Danger frame that carries no `risk_score` does not re-arm
the deduplicator. After an alert, the expiry of its cooldown and a frame with status "Safe"
(marker "Safe", no cooldown), the first Danger frame processed has no `risk_score`:
`updateDashboard` throws at `data.risk_score.toFixed(0)`, shows no toast, leaves the marker
at "Safe" and the cooldown off; the same holds when `risk_score` is `null`. -/
theorem danger_frame_without_score_not_rearmed :
    (pageRun DashboardPage.sample
        [PageEvent.frame (Frame.withStatus "Danger" 100 true), PageEvent.cooldownTimer,
         PageEvent.frame (Frame.withStatus "Safe" 10 true)]).lastAlertStatus = "Safe"
    ∧ (pageRun DashboardPage.sample
        [PageEvent.frame (Frame.withStatus "Danger" 100 true), PageEvent.cooldownTimer,
         PageEvent.frame (Frame.withStatus "Safe" 10 true)]).alertCooldown = false
    ∧ (pageRun DashboardPage.sample
        [PageEvent.frame (Frame.withStatus "Danger" 100 true), PageEvent.cooldownTimer,
         PageEvent.frame (Frame.withStatus "Safe" 10 true)]).toasts.length = 1
    ∧ Frame.dangerNoScore.status = some "Danger"
    ∧ (updateDashboard Frame.dangerNoScore
        (pageRun DashboardPage.sample
          [PageEvent.frame (Frame.withStatus "Danger" 100 true), PageEvent.cooldownTimer,
           PageEvent.frame (Frame.withStatus "Safe" 10 true)])).thrown
      = some (JSError.typeError "cannot read properties of undefined (reading toFixed)")
    ∧ (updateDashboard Frame.dangerNoScore
        (pageRun DashboardPage.sample
          [PageEvent.frame (Frame.withStatus "Danger" 100 true), PageEvent.cooldownTimer,
           PageEvent.frame (Frame.withStatus "Safe" 10 true)])).page.toasts.length = 1
    ∧ (updateDashboard Frame.dangerNoScore
        (pageRun DashboardPage.sample
          [PageEvent.frame (Frame.withStatus "Danger" 100 true), PageEvent.cooldownTimer,
           PageEvent.frame (Frame.withStatus "Safe" 10 true)])).page.lastAlertStatus = "Safe"
    ∧ (updateDashboard Frame.dangerNoScore
        (pageRun DashboardPage.sample
          [PageEvent.frame (Frame.withStatus "Danger" 100 true), PageEvent.cooldownTimer,
           PageEvent.frame (Frame.withStatus "Safe" 10 true)])).page.alertCooldown = false
    ∧ (updateDashboard { Frame.dangerNoScore with risk_score := JSVal.null }
        (pageRun DashboardPage.sample
          [PageEvent.frame (Frame.withStatus "Danger" 100 true), PageEvent.cooldownTimer,
           PageEvent.frame (Frame.withStatus "Safe" 10 true)])).page.toasts.length = 1
    ∧ (updateDashboard { Frame.dangerNoScore with risk_score := JSVal.null }
        (pageRun DashboardPage.sample
          [PageEvent.frame (Frame.withStatus "Danger" 100 true), PageEvent.cooldownTimer,
           PageEvent.frame (Frame.withStatus "Safe" 10 true)])).page.lastAlertStatus
      = "Safe" := by
  refine ⟨by decide, by decide, by decide, rfl, by decide, by decide, by decide, by decide,
    by decide, by decide⟩

/-! ## The comma-separated fields of an exported row -/

theorem splitOnComma_ne_nil (cs : List Char) : splitOnComma cs ≠ [] := by
  cases cs with
  | nil => simp [splitOnComma]
  | cons c cs =>
    unfold splitOnComma
    split_ifs
    · simp
    · split <;> simp

/-- Cutting a line at its commas gives one field more than it has commas. -/
theorem splitOnComma_length (cs : List Char) :
    (splitOnComma cs).length = cs.count ',' + 1 := by
  induction cs with
  | nil => rfl
  | cons c cs ih =>
    unfold splitOnComma
    split_ifs with h
    · rw [List.length_cons, ih, h, List.count_cons_self]
    · have hc : (c :: cs).count ',' = cs.count ',' := by
        rw [List.count_cons_of_ne (fun e => h e.symm)]
      rw [hc, ← ih]
      split
      · next hnil => exact absurd hnil (splitOnComma_ne_nil cs)
      · next field fields hcons => rw [hcons]; rfl

theorem csvFields_length (line : String) : (csvFields line).length = countCommas line + 1 := by
  unfold csvFields countCommas
  rw [List.length_map, splitOnComma_length]

theorem countCommas_append (a b : String) :
    countCommas (a ++ b) = countCommas a + countCommas b := by
  unfold countCommas
  rw [String.data_append, List.count_append]

theorem countCommas_comma : countCommas "," = 1 := by decide

theorem intercalate_five (a b c d e : String) :
    ",".intercalate [a, b, c, d, e] = a ++ "," ++ b ++ "," ++ c ++ "," ++ d ++ "," ++ e := by
  simp [String.intercalate, String.intercalate.go]

/-- The line of a row has four commas more than its five texts have together. -/
theorem countCommas_csvRow (r : CsvRender) (a : Alert) :
    countCommas (",".intercalate (csvRow r a))
      = 4 + (countCommas (r.localeString a.timestamp) + countCommas a.severity
          + countCommas (r.messageText a.message) + countCommas (orNA (a.mq2.map r.numText))
          + countCommas (orNA (a.mq135.map r.numText))) := by
  unfold csvRow
  rw [intercalate_five]
  simp only [countCommas_append, countCommas_comma]
  omega

/-- C27 (fails on the code): an exported row does not carry five fields. `exportCSV` joins
the five texts of a row with commas without quoting them, so a reader of the line finds
five fields plus one for every comma inside a text. The header line has five fields; with
locale `en-US` the timestamp text `1/1/1970, 12:00:01 AM` contains a comma, and the row of
the HIGH alert raised at instant 1000 has six fields, the time standing under `Severity`,
the severity under `Message`, and so on. -/
theorem exportCSV_row_has_six_fields :
    (∀ (r : CsvRender) (a : Alert),
        (csvFields (",".intercalate (csvRow r a))).length
          = 5 + (countCommas (r.localeString a.timestamp) + countCommas a.severity
              + countCommas (r.messageText a.message)
              + countCommas (orNA (a.mq2.map r.numText))
              + countCommas (orNA (a.mq135.map r.numText))))
    ∧ csvFields (",".intercalate csvHeader)
        = ["Timestamp", "Severity", "Message", "MQ2 (V)", "MQ135 (V)"]
    ∧ exportCSV CsvRender.enUS [Alerts.highAlert 1000 (Frame.withRisk 100 "WARN")]
        = "Timestamp,Severity,Message,MQ2 (V),MQ135 (V)\n1/1/1970, 12:00:01 AM,HIGH,Critical Risk Detected! Score: 100,0.00,0.00"
    ∧ csvFields
        (",".intercalate (csvRow CsvRender.enUS (Alerts.highAlert 1000 (Frame.withRisk 100 "WARN"))))
        = ["1/1/1970", " 12:00:01 AM", "HIGH", "Critical Risk Detected! Score: 100", "0.00",
           "0.00"]
    ∧ (csvFields
        (",".intercalate
          (csvRow CsvRender.enUS (Alerts.highAlert 1000 (Frame.withRisk 100 "WARN"))))).length
        = 6
    ∧ (csvFields (",".intercalate csvHeader)).length = 5 := by
  refine ⟨fun r a => ?_, by decide, by decide, by decide, by decide, by decide⟩
  rw [csvFields_length, countCommas_csvRow]
  omega

end OpenLab
